import Mathlib

/-!
# Verification of the Tilt Live Update engine specification

This file gives a shallow embedding of the Live Update reconciler of the
`tilt` repository and of the `KubernetesApply` validation code, and proves
the frozen claims about them.

The repository sources available here contain the reconciler's test suite
(package `liveupdate`, file `reconciler_test.go`) and the API type file
`kubernetesapply_types.go`, but not `reconciler.go` itself.  The
`KubernetesApply.Validate` function is embedded directly from the source.
The reconciler is modelled from the specification (sections 3, 4, 7 and 8
of spec.md), with the test suite as the behavioral oracle; each such
definition is marked `Modelled from the spec:`.

Machine times (`metav1.MicroTime`) are modelled as `Nat` microseconds,
with `0` denoting the zero time.  Paths are plain strings; `filepath.Join`
is modelled by `joinPath`.
-/

namespace Tilt

/-! ## Association-list utilities (stand-ins for Go maps with stable order) -/

/-- Lookup in an association list keyed by strings. -/
def alookup {α : Type} : List (String × α) → String → Option α
  | [], _ => none
  | (k, v) :: l, k' => if k = k' then some v else alookup l k'

/-- Insert or replace the binding of a key. -/
def upsertA {α : Type} : List (String × α) → String → α → List (String × α)
  | [], k, v => [(k, v)]
  | (k0, v0) :: l, k, v =>
    if k0 = k then (k0, v) :: l else (k0, v0) :: upsertA l k v

/-- Concatenation of the images of a list under a list-valued function. -/
def cmap {α β : Type} (f : α → List β) : List α → List β
  | [] => []
  | a :: l => f a ++ cmap f l

theorem alookup_upsertA_self {α : Type} (l : List (String × α)) (k : String) (v : α) :
    alookup (upsertA l k v) k = some v := by
  induction l with
  | nil => simp [upsertA, alookup]
  | cons hd tl ih =>
    obtain ⟨k0, v0⟩ := hd
    by_cases h : k0 = k
    · simp [upsertA, h, alookup]
    · simp [upsertA, h, alookup, ih]

theorem alookup_upsertA_other {α : Type} (l : List (String × α)) (k k' : String) (v : α)
    (h : k ≠ k') : alookup (upsertA l k v) k' = alookup l k' := by
  induction l with
  | nil => simp [upsertA, alookup, h]
  | cons hd tl ih =>
    obtain ⟨k0, v0⟩ := hd
    by_cases h0 : k0 = k
    · subst h0
      simp [upsertA, alookup, h]
    · simp [upsertA, h0, alookup, ih]

theorem upsertA_self {α : Type} (l : List (String × α)) (k : String) (v : α)
    (h : alookup l k = some v) : upsertA l k v = l := by
  induction l with
  | nil => simp [alookup] at h
  | cons hd tl ih =>
    obtain ⟨k0, v0⟩ := hd
    by_cases h0 : k0 = k
    · subst h0
      simp [alookup] at h
      simp [upsertA, h]
    · simp [alookup, h0] at h
      simp [upsertA, h0, ih h]

theorem foldl_max_init {α : Type} (g : α → Nat) (l : List α) (init : Nat) :
    init ≤ l.foldl (fun a x => max a (g x)) init := by
  induction l generalizing init with
  | nil => simp
  | cons hd tl ih =>
    calc init ≤ max init (g hd) := Nat.le_max_left _ _
    _ ≤ tl.foldl (fun a x => max a (g x)) (max init (g hd)) := ih _

theorem foldl_max_mem {α : Type} (g : α → Nat) (l : List α) (init : Nat) (x : α)
    (hx : x ∈ l) : g x ≤ l.foldl (fun a x => max a (g x)) init := by
  induction l generalizing init with
  | nil => cases hx
  | cons hd tl ih =>
    rcases List.mem_cons.mp hx with h | h
    · subst h
      calc g x ≤ max init (g x) := Nat.le_max_right _ _
      _ ≤ tl.foldl (fun a y => max a (g y)) (max init (g x)) := foldl_max_init _ _ _
    · exact ih _ h

/-! ## Data model

Modelled from the spec: section 3 (entities) and the `v1alpha1` API
types as used by the test suite (`FileWatch`, `ImageMap`,
`KubernetesApply`, `KubernetesDiscovery`, `DockerComposeService`,
`LiveUpdate` spec and status). -/

/-- One file event on a watch: `FileEvent{time, seenFiles[]}`. -/
structure FileEvent where
  time : Nat
  seenFiles : List String
  deriving DecidableEq, Repr

/-- The part of a `FileWatch` the reconciler reads: its event sequence. -/
structure FileWatch where
  events : List FileEvent
  deriving DecidableEq, Repr

/-- The part of an `ImageMap` status the reconciler reads. -/
structure ImageMap where
  image : String
  imageFromCluster : String
  buildStartTime : Nat
  deriving DecidableEq, Repr

/-- The part of a `KubernetesApply` status the reconciler reads. -/
structure KApply where
  lastApplyStartTime : Nat
  deriving DecidableEq, Repr

/-- Kubernetes container state: exactly one of Running / Waiting / Terminated. -/
inductive CState where
  | running (startedAt : Nat)
  | waiting (reason : String)
  | terminated
  deriving DecidableEq, Repr

/-- A container in a discovery snapshot. -/
structure KContainer where
  name : String
  id : String
  image : String
  state : CState
  deriving DecidableEq, Repr

/-- A pod in a `KubernetesDiscovery` status snapshot. -/
structure Pod where
  name : String
  ns : String
  initContainers : List KContainer
  containers : List KContainer
  deriving DecidableEq, Repr

/-- The part of a `KubernetesDiscovery` status the reconciler reads. -/
structure KDiscovery where
  pods : List Pod
  deriving DecidableEq, Repr

/-- The part of a `DockerComposeService` status the reconciler reads. -/
structure DCService where
  containerID : String
  status : String
  startedAt : Nat
  deriving DecidableEq, Repr

/-- `LiveUpdateKubernetesSelector`; empty string means the field is unset. -/
structure KSelector where
  discoveryName : String
  applyName : String
  imageMapName : String
  containerName : String
  image : String
  deriving DecidableEq, Repr

/-- `LiveUpdateDockerComposeSelector`. -/
structure DCSelector where
  service : String
  deriving DecidableEq, Repr

/-- The selector: a tagged variant, exactly one arm set. -/
inductive Selector where
  | kubernetes (s : KSelector)
  | dockerCompose (s : DCSelector)
  deriving DecidableEq, Repr

/-- `LiveUpdateSource{fileWatch, imageMap?}`; empty string = no image map. -/
structure Source where
  fileWatch : String
  imageMap : String
  deriving DecidableEq, Repr

/-- `LiveUpdateSync{localPath, containerPath}`. -/
structure Sync where
  localPath : String
  containerPath : String
  deriving DecidableEq, Repr

/-- `LiveUpdateExec{args[], triggerPaths?[]}`. -/
structure Exec where
  args : List String
  triggerPaths : List String
  deriving DecidableEq, Repr

/-- `LiveUpdateSpec` as in spec.md section 3. -/
structure LUSpec where
  basePath : String
  sources : List Source
  selector : Selector
  syncs : List Sync
  execs : List Exec
  stopPaths : List String
  restartAlways : Bool
  deriving DecidableEq, Repr

/-- Outcome of one `UpdateContainer` call on the fake container updater. -/
inductive UpdaterOutcome where
  | success
  | runStepFailure (msg : String)
  | infraFailure (msg : String)
  deriving DecidableEq, Repr

/-- Everything the reconciler reads on one pass: the LiveUpdate object
(spec plus its two annotations) and snapshots of every external object,
the trigger-queue ConfigMap contents, and the container updater's
behavior keyed by container ID (absent means success). -/
structure ExtState where
  spec : LUSpec
  updateMode : String
  manifestName : String
  fileWatches : List (String × FileWatch)
  imageMaps : List (String × ImageMap)
  kubernetesApplies : List (String × KApply)
  kubernetesDiscoveries : List (String × KDiscovery)
  dockerComposeServices : List (String × DCService)
  triggerQueue : List String
  updaterOutcomes : List (String × UpdaterOutcome)
  deriving DecidableEq, Repr

/-! ## Monitor (durable in-process state), spec.md section 3 -/

/-- Per-fileWatch monitor memory: `modTimeByPath` and `lastEventObserved`. -/
structure MonitorSource where
  modTimeByPath : List (String × Nat)
  lastEventObserved : Nat
  deriving DecidableEq, Repr

/-- A sticky terminal failure with the time used to decide supersession. -/
structure TerminalFailure where
  reason : String
  message : String
  time : Nat
  deriving DecidableEq, Repr

/-- Per-container monitor memory: the synced high-watermark and the last
exec (run-step) error recorded for that container. -/
structure ContainerMonitor where
  syncedTime : Nat
  lastExecError : String
  deriving DecidableEq, Repr

/-- The per-LiveUpdate monitor. -/
structure Monitor where
  sources : List (String × MonitorSource)
  failedTerminalState : Option TerminalFailure
  containers : List (String × ContainerMonitor)
  deriving DecidableEq, Repr

/-- The empty monitor, created on first use. -/
def Monitor.initial : Monitor := ⟨[], none, []⟩

def msOf (m : Monitor) (fw : String) : MonitorSource :=
  (alookup m.sources fw).getD ⟨[], 0⟩

def cmOf (m : Monitor) (id : String) : ContainerMonitor :=
  (alookup m.containers id).getD ⟨0, ""⟩

def syncedOf (m : Monitor) (id : String) : Nat := (cmOf m id).syncedTime

def execErrOf (m : Monitor) (id : String) : String := (cmOf m id).lastExecError

/-! ## Status -/

/-- `status.failed` entry (lastTransitionTime omitted: the code reuses the
existing entry when reason and message are unchanged, so it does not
affect steady-state status equality). -/
structure FailedStatus where
  reason : String
  message : String
  deriving DecidableEq, Repr

/-- One entry of `status.containers`; `waiting` holds the waiting reason. -/
structure ContainerStatus where
  podName : String
  ns : String
  containerName : String
  containerID : String
  lastFileTimeSynced : Nat
  waiting : Option String
  lastExecError : String
  deriving DecidableEq, Repr

/-- `LiveUpdateStatus`. -/
structure LUStatus where
  failed : Option FailedStatus
  containers : List ContainerStatus
  deriving DecidableEq, Repr

/-- One call to the container updater, as recorded by the fake updater. -/
structure UpdateCall where
  containerID : String
  files : List String
  cmds : List (List String)
  hotReload : Bool
  deriving DecidableEq, Repr

/-- The observable result of one reconcile pass: the new monitor, the new
status, the updater calls made, the BuildStarted action (its changed
files) and BuildCompleted action (its optional error) if posted, and the
lines logged to stdout. -/
structure RecResult where
  monitor : Monitor
  status : LUStatus
  calls : List UpdateCall
  started : Option (List String)
  completed : Option (Option String)
  logs : List String
  deriving DecidableEq, Repr

/-- The apiserver's optimistic-concurrency resource version bump: a status
write occurs only when the new status differs. -/
def rvAfter (rv : Nat) (old new : LUStatus) : Nat :=
  if new = old then rv else rv + 1

/-! ## Path matching

Modelled from the spec: relative paths in syncs, stop paths and exec
trigger paths are resolved against `basePath` (`filepath.Join`); a changed
file is relevant to a sync when it lies under the sync's resolved
`localPath`, and matches a stop path or trigger path when it equals the
resolved path. -/

/-- `filepath.Join(base, rel)` for the cases the engine uses. -/
def joinPath (base rel : String) : String :=
  if rel = "." then base else base ++ "/" ++ rel

/-- Does path `p` fall under some declared sync? -/
def underSomeSync (base : String) (syncs : List Sync) (p : String) : Bool :=
  syncs.any (fun s => List.isPrefixOf (joinPath base s.localPath).data p.data)

/-- Does path `p` match a declared stop path? -/
def matchesStopPath (base : String) (stops : List String) (p : String) : Bool :=
  stops.any (fun sp => joinPath base sp == p)

/-- Does changed path `p` match an exec trigger path? -/
def matchesTriggerPath (base : String) (tp p : String) : Bool :=
  joinPath base tp == p

/-! ## Event absorption (spec.md section 4.2) -/

/-- Modelled from the spec: fold every file event newer than
`lastEventObserved` into `modTimeByPath` (taking the max per path, and
recording every seen path), then advance `lastEventObserved`. -/
def absorbOne (ext : ExtState) (srcs : List (String × MonitorSource)) (s : Source) :
    List (String × MonitorSource) :=
  match alookup ext.fileWatches s.fileWatch with
  | none => srcs
  | some fw =>
    let ms := (alookup srcs s.fileWatch).getD ⟨[], 0⟩
    let cutoff := ms.lastEventObserved
    let evs := fw.events.filter (fun e => decide (cutoff < e.time))
    let mtp := evs.foldl
      (fun acc e => e.seenFiles.foldl (fun acc2 p => upsertA acc2 p e.time) acc)
      ms.modTimeByPath
    let last := evs.foldl (fun a e => max a e.time) cutoff
    upsertA srcs s.fileWatch ⟨mtp, last⟩

/-- Absorb the new events of every declared source into the monitor. -/
def absorbAll (ext : ExtState) (m : Monitor) : Monitor :=
  { m with sources := ext.spec.sources.foldl (absorbOne ext) m.sources }

/-! ## Required-object check (spec.md section 4.1 step 2) -/

/-- Modelled from the spec: the first referenced object that is missing,
checking each source's FileWatch and ImageMap, then the selector's
targets.  Returns its name. -/
def missingSource (ext : ExtState) : List Source → Option String
  | [] => none
  | s :: rest =>
    if (alookup ext.fileWatches s.fileWatch).isNone then some s.fileWatch
    else if s.imageMap ≠ "" ∧ (alookup ext.imageMaps s.imageMap).isNone then
      some s.imageMap
    else missingSource ext rest

/-- Modelled from the spec: the name of a required object that does not
exist at reconcile time, if any. -/
def requiredMissing (ext : ExtState) : Option String :=
  match missingSource ext ext.spec.sources with
  | some n => some n
  | none =>
    match ext.spec.selector with
    | .kubernetes s =>
      if (alookup ext.kubernetesDiscoveries s.discoveryName).isNone then
        some s.discoveryName
      else if s.applyName ≠ "" ∧ (alookup ext.kubernetesApplies s.applyName).isNone then
        some s.applyName
      else if s.imageMapName ≠ "" ∧ (alookup ext.imageMaps s.imageMapName).isNone then
        some s.imageMapName
      else none
    | .dockerCompose s =>
      if (alookup ext.dockerComposeServices s.service).isNone then some s.service
      else none

/-! ## External clocks -/

/-- Max `BuildStartTime` across the image maps named by any source
(spec.md section 9, open question: take the maximum). -/
def buildsMax (ext : ExtState) : Nat :=
  ext.spec.sources.foldl
    (fun acc s =>
      if s.imageMap = "" then acc
      else max acc (((alookup ext.imageMaps s.imageMap).getD ⟨"", "", 0⟩).buildStartTime))
    0

/-- Modelled from the spec: the invalidation gate
`max(imageMap.BuildStartTime, apply.LastApplyStartTime)` for Kubernetes,
or `max(imageMap.BuildStartTime, dockerCompose.containerState.StartedAt)`
for Docker Compose. -/
def gateOf (ext : ExtState) : Nat :=
  match ext.spec.selector with
  | .kubernetes s =>
    if s.applyName = "" then buildsMax ext
    else max (buildsMax ext)
      (((alookup ext.kubernetesApplies s.applyName).getD ⟨0⟩).lastApplyStartTime)
  | .dockerCompose s =>
    max (buildsMax ext)
      (((alookup ext.dockerComposeServices s.service).getD ⟨"", "", 0⟩).startedAt)

/-! ## Selector resolution (spec.md section 4.3) -/

/-- A matched container, with the pod context and whether it is currently
selectable (Running with a non-empty ID). -/
structure RContainer where
  podName : String
  ns : String
  name : String
  id : String
  startedAt : Nat
  ready : Bool
  deriving DecidableEq, Repr

/-- Result of resolving the selector: a terminal failure, or the matched
containers in pod order. -/
inductive Resolution where
  | fail (reason message : String)
  | ok (cs : List RContainer)
  deriving DecidableEq, Repr

/-- Scan a reversed character list for a trailing image tag: returns the
remaining (still reversed) name when a `:` is found before any `/`, and
`none` when the reference has no tag (a `:` before the last `/` is a
registry port, not a tag). -/
def stripTagRev : List Char → Option (List Char)
  | [] => none
  | c :: rest =>
    if c = ':' then some rest
    else if c = '/' then none
    else stripTagRev rest

/-- The name part of an image reference: the reference with its tag (the
part after the last `:`, when that `:` comes after the last `/`)
stripped.  `local-registry:12345/img:my-tag` and
`local-registry:12345/img:some-tag` have the same name. -/
def imageName (ref : String) : String :=
  match stripTagRev ref.data.reverse with
  | some rest => ⟨rest.reverse⟩
  | none => ref

/-- Modelled from the spec and the test oracle: a pod container matches
the Kubernetes selector when its name matches `containerName`, OR its
image matches `image` by image name, ignoring tags
(`TestKubernetesImageSelector` selects a container whose image differs
from the selector's `image` only by tag), OR its image resolves via the
named ImageMap's `imageFromCluster`. -/
def matchesKSelector (sel : KSelector) (ims : List (String × ImageMap)) (c : KContainer) :
    Bool :=
  (sel.containerName != "" && c.name == sel.containerName) ||
  (sel.image != "" && imageName c.image == imageName sel.image) ||
  (sel.imageMapName != "" &&
    ((alookup ims sel.imageMapName).map ImageMap.imageFromCluster == some c.image))

/-- All selector-matched containers of the discovery snapshot, with their
pods, in pod order.  Init containers are never scanned. -/
def matchedContainers (sel : KSelector) (ims : List (String × ImageMap))
    (kd : KDiscovery) : List (Pod × KContainer) :=
  cmap (fun pod => (pod.containers.filter (matchesKSelector sel ims)).map (fun c => (pod, c)))
    kd.pods

def isCrashLooping (c : KContainer) : Bool :=
  match c.state with
  | .waiting r => r == "CrashLoopBackOff"
  | _ => false

def isTerminatedState (c : KContainer) : Bool :=
  match c.state with
  | .terminated => true
  | _ => false

def isRunningState (c : KContainer) : Bool :=
  match c.state with
  | .running _ => true
  | _ => false

/-- Classify a matched container: Running with an ID is selectable;
Waiting or missing ID is kept as a waiting status entry; a Terminated
container with a Running sibling is dropped. -/
def classifyContainer (pc : Pod × KContainer) : Option RContainer :=
  match pc.2.state with
  | .terminated => none
  | .running t =>
    some ⟨pc.1.name, pc.1.ns, pc.2.name, pc.2.id, t, pc.2.id != ""⟩
  | .waiting _ =>
    some ⟨pc.1.name, pc.1.ns, pc.2.name, pc.2.id, 0, false⟩

/-- Modelled from the spec: resolve the Kubernetes selector.  A matched
CrashLoopBackOff container is a terminal failure; a matched Terminated
container with no Running sibling is a terminal failure; otherwise the
matched containers are classified. -/
def resolveK8s (sel : KSelector) (ims : List (String × ImageMap)) (kd : KDiscovery) :
    Resolution :=
  let matched := matchedContainers sel ims kd
  if matched.any (fun pc => isCrashLooping pc.2) then
    .fail "CrashLoopBackOff" "Container for live update is crash looping."
  else if matched.any (fun pc => isTerminatedState pc.2) &&
      !(matched.any (fun pc => isRunningState pc.2)) then
    .fail "Terminated"
      ("Container for live update is stopped. Pod name: " ++
        (((matched.filter (fun pc => isTerminatedState pc.2)).head?).map
          (fun pc => pc.1.name)).getD "")
  else .ok (matched.filterMap classifyContainer)

/-- Modelled from the spec: resolve the Docker Compose selector; the
single container is selectable when the container state is running. -/
def resolveDC (svc : DCService) : Resolution :=
  if svc.status == "running" then
    .ok [⟨"", "", "", svc.containerID, svc.startedAt, svc.containerID != ""⟩]
  else .ok []

/-- Resolve the spec's selector against the fetched snapshots. -/
def resolveSelector (ext : ExtState) : Resolution :=
  match ext.spec.selector with
  | .kubernetes s =>
    resolveK8s s ext.imageMaps
      ((alookup ext.kubernetesDiscoveries s.discoveryName).getD ⟨[]⟩)
  | .dockerCompose s =>
    resolveDC ((alookup ext.dockerComposeServices s.service).getD ⟨"", "", 0⟩)

/-! ## Plan builder (spec.md section 4.4) -/

/-- All file paths known to the monitor, with their recorded mod times,
in source order. -/
def allPaths (spec : LUSpec) (m : Monitor) : List (String × Nat) :=
  cmap (fun s => (msOf m s.fileWatch).modTimeByPath) spec.sources

/-- The known paths matching a declared `stopPath` with a recorded time
newer than the gate. -/
def stopHits (spec : LUSpec) (m : Monitor) (gate : Nat) : List (String × Nat) :=
  (allPaths spec m).filter
    (fun pt => matchesStopPath spec.basePath spec.stopPaths pt.1 && decide (gate < pt.2))

/-- Modelled from the spec: a stop-path hit is a known path matching a
`stopPath` whose recorded time is newer than the gate; returns the newest
such time. -/
def stopHit (spec : LUSpec) (m : Monitor) (gate : Nat) : Option Nat :=
  if (stopHits spec m gate).isEmpty then none
  else some ((stopHits spec m gate).foldl (fun a pt => max a pt.2) 0)

/-- Modelled from the spec: the files pending for a target container are
the known paths under some sync whose recorded time is newer than the
gate, the container's start time, and the container's synced
high-watermark. -/
def pendingFiles (spec : LUSpec) (m : Monitor) (gate : Nat) (c : RContainer) :
    List (String × Nat) :=
  (allPaths spec m).filter
    (fun pt => underSomeSync spec.basePath spec.syncs pt.1 &&
      decide (gate < pt.2) && decide (c.startedAt < pt.2) &&
      decide (syncedOf m c.id < pt.2))

/-- Synthesize `status.containers` for the matched containers: selectable
containers report their synced watermark (and `Trigger` when waiting for
a manual trigger); non-selectable ones report `ContainerWaiting`. -/
def synthContainers (m : Monitor) (cs : List RContainer) (triggerWait : Bool) :
    List ContainerStatus :=
  cs.map (fun c =>
    { podName := c.podName, ns := c.ns, containerName := c.name,
      containerID := c.id, lastFileTimeSynced := syncedOf m c.id,
      waiting := if c.ready then (if triggerWait then some "Trigger" else none)
        else some "ContainerWaiting",
      lastExecError := execErrOf m c.id })

/-- Modelled from the spec: include exec `e` when it has no triggerPaths
or some changed path matches one of them. -/
def execsToRun (spec : LUSpec) (changed : List String) : List Exec :=
  spec.execs.filter (fun e =>
    e.triggerPaths.isEmpty ||
      e.triggerPaths.any (fun tp => changed.any (matchesTriggerPath spec.basePath tp)))

/-! ## Executor (spec.md section 4.5) -/

/-- Running state of the sequential per-target execution. -/
structure ExecState where
  m : Monitor
  calls : List UpdateCall
  firstErr : Option String
  infra : Option TerminalFailure
  deriving DecidableEq, Repr

/-- Record a completed update on a container: advance the synced
high-watermark and set (or clear) the container's last exec error. -/
def advanceContainer (m : Monitor) (id : String) (t : Nat) (execErr : String) : Monitor :=
  { m with containers :=
      upsertA m.containers id ⟨max (cmOf m id).syncedTime t, execErr⟩ }

/-- Max recorded mod time among a target's pending files. -/
def maxFileTime (fs : List (String × Nat)) : Nat :=
  fs.foldl (fun a pt => max a pt.2) 0

/-- Modelled from the spec: update one target container.  A run-step
failure records `lastExecError` and stays retryable; any other error
becomes the terminal failure `UpdateFailed` with message
`Updating container <id>: <err>` and aborts the remaining targets. -/
def theCall (ext : ExtState) (plan : RContainer × List (String × Nat)) : UpdateCall :=
  ⟨plan.1.id, plan.2.map Prod.fst,
    (execsToRun ext.spec (plan.2.map Prod.fst)).map Exec.args,
    !ext.spec.restartAlways⟩

def execOneTarget (ext : ExtState) (gate : Nat) (st : ExecState)
    (plan : RContainer × List (String × Nat)) : ExecState :=
  if st.infra.isSome || plan.2.isEmpty then st
  else
    match (alookup ext.updaterOutcomes plan.1.id).getD .success with
    | .success =>
      { st with
        m := advanceContainer st.m plan.1.id (maxFileTime plan.2) ""
        calls := st.calls ++ [theCall ext plan] }
    | .runStepFailure msg =>
      { st with
        m := advanceContainer st.m plan.1.id (maxFileTime plan.2) msg
        calls := st.calls ++ [theCall ext plan]
        firstErr := some (st.firstErr.getD msg) }
    | .infraFailure msg =>
      { st with
        calls := st.calls ++ [theCall ext plan]
        firstErr := some (st.firstErr.getD ("Updating container " ++ plan.1.id ++ ": " ++ msg))
        infra := some ⟨"UpdateFailed", "Updating container " ++ plan.1.id ++ ": " ++ msg, gate⟩ }

/-- Execute the per-target plans sequentially. -/
def execFold (ext : ExtState) (gate : Nat) (st : ExecState)
    (plans : List (RContainer × List (String × Nat))) : ExecState :=
  plans.foldl (execOneTarget ext gate) st

/-- Modelled from the spec: the executor.  Posts BuildStarted with the
changed files, updates each target, classifies errors, and posts
BuildCompleted with the first error if any. -/
def doUpdate (ext : ExtState) (m : Monitor) (gate : Nat) (cs : List RContainer)
    (plans : List (RContainer × List (String × Nat))) : RecResult :=
  let started := cmap (fun plan => plan.2.map Prod.fst) plans
  let fin := execFold ext gate ⟨m, [], none, none⟩ plans
  match fin.infra with
  | some f =>
    { monitor := { fin.m with failedTerminalState := some f },
      status := ⟨some ⟨f.reason, f.message⟩, []⟩,
      calls := fin.calls, started := some started,
      completed := some fin.firstErr,
      logs := [f.reason ++ ": " ++ f.message] }
  | none =>
    { monitor := fin.m,
      status := ⟨none, synthContainers fin.m cs false⟩,
      calls := fin.calls, started := some started,
      completed := some fin.firstErr, logs := [] }

/-! ## Reconcile (spec.md sections 4.1 and 4.4) -/

/-- Modelled from the spec: the plan builder and executor, run after event
absorption with all referenced objects present.  Decision order: selector
terminal failures, then stop paths, then per-target pending files, then
manual-mode gating, then the update itself. -/
def planAndExecute (ext : ExtState) (m : Monitor) (gate : Nat) : RecResult :=
  match resolveSelector ext with
  | .fail reason msg =>
    let f : TerminalFailure := ⟨reason, msg, gate⟩
    { monitor := { m with failedTerminalState := some f },
      status := ⟨some ⟨reason, msg⟩, []⟩, calls := [], started := none,
      completed := none, logs := [reason ++ ": " ++ msg] }
  | .ok cs =>
    match stopHit ext.spec m gate with
    | some t =>
      let f : TerminalFailure :=
        ⟨"UpdateStopped", "Updates stopped", t⟩
      { monitor := { m with failedTerminalState := some f },
        status := ⟨some ⟨f.reason, f.message⟩, []⟩, calls := [], started := none,
        completed := none, logs := [f.reason ++ ": " ++ f.message] }
    | none =>
      let targets := cs.filter RContainer.ready
      let plans := targets.map (fun c => (c, pendingFiles ext.spec m gate c))
      if plans.all (fun plan => plan.2.isEmpty) then
        { monitor := m, status := ⟨none, synthContainers m cs false⟩,
          calls := [], started := none, completed := none, logs := [] }
      else if ext.updateMode == "manual" && !(ext.triggerQueue.contains ext.manifestName) then
        { monitor := m, status := ⟨none, synthContainers m cs true⟩,
          calls := [], started := none, completed := none, logs := [] }
      else
        doUpdate ext m gate cs plans

/-- Modelled from the spec: the monitor's sticky terminal state is
consulted first; it is cleared exactly when an external start time
advances past the failure's time. -/
def stepAfterAbsorb (ext : ExtState) (m : Monitor) : RecResult :=
  let gate := gateOf ext
  match m.failedTerminalState with
  | some f =>
    if gate > f.time then
      planAndExecute ext { m with failedTerminalState := none } gate
    else
      { monitor := m, status := ⟨some ⟨f.reason, f.message⟩, []⟩, calls := [],
        started := none, completed := none, logs := [] }
  | none => planAndExecute ext m gate

/-- Modelled from the spec: one reconcile pass.  Missing required objects
produce the (unlogged, non-sticky) `ObjectNotFound` failure; otherwise new
file events are absorbed and the plan is built and executed. -/
def reconcile (ext : ExtState) (m : Monitor) : RecResult :=
  match requiredMissing ext with
  | some n =>
    { monitor := m,
      status := ⟨some ⟨"ObjectNotFound", "Not found: " ++ n⟩, []⟩,
      calls := [], started := none, completed := none, logs := [] }
  | none => stepAfterAbsorb ext (absorbAll ext m)

/-! ## The frontend fixtures of the test suite

These mirror `setupFrontend` / `setupFrontendWithSelector` /
`setupDockerComposeFrontend` in the reconciler tests, with times left as
parameters (`tBuild` = ImageMap build start, `tApply` = apply start,
`cstate` = state of the single discovered container). -/

/-- The `frontend-liveupdate` spec of `setupFrontend`. -/
def frontendSpec (sel : Selector) : LUSpec :=
  { basePath := "/base"
    sources := [⟨"frontend-fw", "frontend-image-map"⟩]
    selector := sel
    syncs := [⟨".", "/app"⟩]
    execs := []
    stopPaths := ["stop.txt"]
    restartAlways := false }

/-- The default Kubernetes selector of `setupFrontend`. -/
def frontendKSel : KSelector :=
  ⟨"frontend-discovery", "frontend-apply", "frontend-image-map", "", ""⟩

/-- The external world of `setupFrontend`, parameterized by the clock
values and the container state. -/
def frontendExt (sel : Selector) (tBuild tApply : Nat) (cstate : CState)
    (events : List FileEvent) (mode : String) (queue : List String)
    (outcomes : List (String × UpdaterOutcome)) : ExtState :=
  { spec := frontendSpec sel
    updateMode := mode
    manifestName := "frontend"
    fileWatches := [("frontend-fw", ⟨events⟩)]
    imageMaps := [("frontend-image-map",
      ⟨"frontend-image:my-tag", "local-registry:12345/frontend-image:my-tag", tBuild⟩)]
    kubernetesApplies := [("frontend-apply", ⟨tApply⟩)]
    kubernetesDiscoveries := [("frontend-discovery",
      ⟨[⟨"pod-1", "default", [],
        [⟨"main", "main-id", "local-registry:12345/frontend-image:my-tag", cstate⟩]⟩]⟩)]
    dockerComposeServices := []
    triggerQueue := queue
    updaterOutcomes := outcomes }

/-- The external world of `setupDockerComposeFrontend`, parameterized by
the clock values, the spec's execs and the updater outcomes. -/
def dcFrontendExt (tBuild tStart : Nat) (events : List FileEvent)
    (execs : List Exec) (outcomes : List (String × UpdaterOutcome)) : ExtState :=
  { spec :=
      { basePath := "/base"
        sources := [⟨"frontend-fw", "frontend-image-map"⟩]
        selector := .dockerCompose ⟨"frontend-service"⟩
        syncs := [⟨".", "/app"⟩]
        execs := execs
        stopPaths := ["stop.txt"]
        restartAlways := false }
    updateMode := "auto"
    manifestName := "frontend"
    fileWatches := [("frontend-fw", ⟨events⟩)]
    imageMaps := [("frontend-image-map",
      ⟨"frontend-image:my-tag", "frontend-image:my-tag", tBuild⟩)]
    kubernetesApplies := []
    kubernetesDiscoveries := []
    dockerComposeServices := [("frontend-service", ⟨"main-id", "running", tStart⟩)]
    triggerQueue := []
    updaterOutcomes := outcomes }

/-! ## Absorption lemmas: event folding is idempotent -/

/-- A source is fully absorbed in a monitor-source map: the map has an
entry whose `lastEventObserved` is at least every event time. -/
def AbsorbedSrc (ext : ExtState) (srcs : List (String × MonitorSource)) (s : Source) :
    Prop :=
  match alookup ext.fileWatches s.fileWatch with
  | none => True
  | some fw =>
    ∃ v, alookup srcs s.fileWatch = some v ∧
      ∀ e ∈ fw.events, e.time ≤ v.lastEventObserved

theorem absorbOne_of_absorbed (ext : ExtState) (srcs : List (String × MonitorSource))
    (s : Source) (h : AbsorbedSrc ext srcs s) : absorbOne ext srcs s = srcs := by
  unfold AbsorbedSrc at h
  unfold absorbOne
  cases hfw : alookup ext.fileWatches s.fileWatch with
  | none => rfl
  | some fw =>
    rw [hfw] at h
    obtain ⟨v, hv, hle⟩ := h
    have hfilter : fw.events.filter
        (fun e => decide (((alookup srcs s.fileWatch).getD ⟨[], 0⟩).lastEventObserved < e.time)) = [] := by
      rw [List.filter_eq_nil_iff]
      intro e he
      rw [hv]
      simp only [Option.getD_some, decide_eq_true_eq]
      exact Nat.not_lt.mpr (hle e he)
    simp only [hfilter, List.foldl_nil]
    rw [hv]
    simp only [Option.getD_some]
    exact upsertA_self _ _ _ hv

theorem absorbed_after (ext : ExtState) (srcs : List (String × MonitorSource))
    (s : Source) : AbsorbedSrc ext (absorbOne ext srcs s) s := by
  unfold AbsorbedSrc absorbOne
  cases hfw : alookup ext.fileWatches s.fileWatch with
  | none => trivial
  | some fw =>
    refine ⟨_, alookup_upsertA_self _ _ _, ?_⟩
    intro e he
    set cutoff := ((alookup srcs s.fileWatch).getD ⟨[], 0⟩).lastEventObserved with hcut
    by_cases hlt : cutoff < e.time
    · have hmem : e ∈ fw.events.filter (fun e => decide (cutoff < e.time)) := by
        rw [List.mem_filter]
        exact ⟨he, by simpa using hlt⟩
      exact foldl_max_mem FileEvent.time _ cutoff e hmem
    · calc e.time ≤ cutoff := Nat.not_lt.mp hlt
      _ ≤ _ := foldl_max_init FileEvent.time _ cutoff

theorem absorbed_preserved (ext : ExtState) (srcs : List (String × MonitorSource))
    (s s' : Source) (h : AbsorbedSrc ext srcs s) :
    AbsorbedSrc ext (absorbOne ext srcs s') s := by
  by_cases hk : s'.fileWatch = s.fileWatch
  · have heq : absorbOne ext srcs s' = absorbOne ext srcs s := by
      unfold absorbOne
      rw [hk]
    rw [heq, absorbOne_of_absorbed ext srcs s h]
    exact h
  · unfold AbsorbedSrc at h ⊢
    cases hfw : alookup ext.fileWatches s.fileWatch with
    | none => trivial
    | some fw =>
      rw [hfw] at h
      obtain ⟨v, hv, hle⟩ := h
      refine ⟨v, ?_, hle⟩
      unfold absorbOne
      cases alookup ext.fileWatches s'.fileWatch with
      | none => exact hv
      | some fw' => rw [alookup_upsertA_other _ _ _ _ hk]; exact hv

theorem absorbed_foldl_preserved (ext : ExtState) (L : List Source)
    (X : List (String × MonitorSource)) (s : Source) (h : AbsorbedSrc ext X s) :
    AbsorbedSrc ext (L.foldl (absorbOne ext) X) s := by
  induction L generalizing X with
  | nil => exact h
  | cons hd tl ih => exact ih _ (absorbed_preserved ext X s hd h)

theorem absorbed_all_foldl (ext : ExtState) (L : List Source)
    (X : List (String × MonitorSource)) (s : Source) (hs : s ∈ L) :
    AbsorbedSrc ext (L.foldl (absorbOne ext) X) s := by
  induction L generalizing X with
  | nil => cases hs
  | cons hd tl ih =>
    rcases List.mem_cons.mp hs with h | h
    · subst h
      exact absorbed_foldl_preserved ext tl _ s (absorbed_after ext X s)
    · exact ih _ h

theorem foldl_absorbed_fixed (ext : ExtState) (L : List Source)
    (X : List (String × MonitorSource)) (h : ∀ s ∈ L, AbsorbedSrc ext X s) :
    L.foldl (absorbOne ext) X = X := by
  induction L with
  | nil => rfl
  | cons hd tl ih =>
    have h1 : absorbOne ext X hd = X :=
      absorbOne_of_absorbed ext X hd (h hd (List.mem_cons_self _ _))
    simp only [List.foldl_cons, h1]
    exact ih (fun s hs => h s (List.mem_cons_of_mem _ hs))

/-- Absorbing twice is absorbing once; and any monitor whose sources are
already absorbed is a fixed point of absorption. -/
theorem absorbAll_fixed (ext : ExtState) (m m' : Monitor)
    (h : m'.sources = (absorbAll ext m).sources) : absorbAll ext m' = m' := by
  unfold absorbAll at h ⊢
  have : ext.spec.sources.foldl (absorbOne ext) m'.sources = m'.sources := by
    rw [h]
    exact foldl_absorbed_fixed ext _ _
      (fun s hs => absorbed_all_foldl ext _ _ s hs)
  rw [this]

/-! ## Executor lemmas -/

theorem advance_synced (m : Monitor) (id id' : String) (t : Nat) (e : String) :
    syncedOf (advanceContainer m id t e) id' =
      if id' = id then max (syncedOf m id) t else syncedOf m id' := by
  unfold advanceContainer syncedOf cmOf
  by_cases h : id' = id
  · subst h
    simp [alookup_upsertA_self]
  · simp only [h, if_false]
    rw [alookup_upsertA_other _ _ _ _ (fun hh => h hh.symm)]

theorem advance_synced_le (m : Monitor) (id id' : String) (t : Nat) (e : String) :
    syncedOf m id' ≤ syncedOf (advanceContainer m id t e) id' := by
  rw [advance_synced]
  by_cases h : id' = id
  · subst h
    simp [Nat.le_max_left]
  · simp [h]

theorem execOne_sources (ext : ExtState) (gate : Nat) (st : ExecState)
    (plan : RContainer × List (String × Nat)) :
    (execOneTarget ext gate st plan).m.sources = st.m.sources := by
  unfold execOneTarget
  by_cases h : (st.infra.isSome || plan.2.isEmpty) = true
  · rw [if_pos h]
  · rw [if_neg h]
    split <;> rfl

theorem execOne_failedTerminal (ext : ExtState) (gate : Nat) (st : ExecState)
    (plan : RContainer × List (String × Nat)) :
    (execOneTarget ext gate st plan).m.failedTerminalState = st.m.failedTerminalState := by
  unfold execOneTarget
  by_cases h : (st.infra.isSome || plan.2.isEmpty) = true
  · rw [if_pos h]
  · rw [if_neg h]
    split <;> rfl

theorem execOne_synced_le (ext : ExtState) (gate : Nat) (st : ExecState)
    (plan : RContainer × List (String × Nat)) (id : String) :
    syncedOf st.m id ≤ syncedOf (execOneTarget ext gate st plan).m id := by
  unfold execOneTarget
  by_cases h : (st.infra.isSome || plan.2.isEmpty) = true
  · rw [if_pos h]
  · rw [if_neg h]
    split
    · exact advance_synced_le _ _ _ _ _
    · exact advance_synced_le _ _ _ _ _
    · exact Nat.le_refl _

theorem execFold_sources (ext : ExtState) (gate : Nat) (st : ExecState)
    (plans : List (RContainer × List (String × Nat))) :
    (execFold ext gate st plans).m.sources = st.m.sources := by
  induction plans generalizing st with
  | nil => rfl
  | cons hd tl ih =>
    unfold execFold at ih ⊢
    simp only [List.foldl_cons]
    rw [ih, execOne_sources]

theorem execFold_failedTerminal (ext : ExtState) (gate : Nat) (st : ExecState)
    (plans : List (RContainer × List (String × Nat))) :
    (execFold ext gate st plans).m.failedTerminalState = st.m.failedTerminalState := by
  induction plans generalizing st with
  | nil => rfl
  | cons hd tl ih =>
    unfold execFold at ih ⊢
    simp only [List.foldl_cons]
    rw [ih, execOne_failedTerminal]

theorem execFold_synced_le (ext : ExtState) (gate : Nat) (st : ExecState)
    (plans : List (RContainer × List (String × Nat))) (id : String) :
    syncedOf st.m id ≤ syncedOf (execFold ext gate st plans).m id := by
  induction plans generalizing st with
  | nil => exact Nat.le_refl _
  | cons hd tl ih =>
    unfold execFold at ih ⊢
    simp only [List.foldl_cons]
    exact Nat.le_trans (execOne_synced_le ext gate st hd id) (ih _)

theorem execFold_of_infra (ext : ExtState) (gate : Nat) (st : ExecState)
    (plans : List (RContainer × List (String × Nat))) (h : st.infra.isSome) :
    execFold ext gate st plans = st := by
  induction plans with
  | nil => rfl
  | cons hd tl ih =>
    unfold execFold at ih ⊢
    simp only [List.foldl_cons]
    have : execOneTarget ext gate st hd = st := by
      unfold execOneTarget
      simp [h]
    rw [this, ih]

theorem execOne_infra_time (ext : ExtState) (gate : Nat) (st : ExecState)
    (plan : RContainer × List (String × Nat)) (f : TerminalFailure)
    (h0 : st.infra = none) (h : (execOneTarget ext gate st plan).infra = some f) :
    f.time = gate := by
  unfold execOneTarget at h
  by_cases hg : (st.infra.isSome || plan.2.isEmpty) = true
  · rw [if_pos hg] at h
    rw [h0] at h
    cases h
  · rw [if_neg hg] at h
    cases houtcome : (alookup ext.updaterOutcomes plan.1.id).getD .success <;>
      rw [houtcome] at h
    · simp only at h
      rw [h0] at h
      cases h
    · simp only at h
      rw [h0] at h
      cases h
    · simp only at h
      injection h with h
      rw [← h]

theorem execFold_infra_time (ext : ExtState) (gate : Nat) (st : ExecState)
    (plans : List (RContainer × List (String × Nat))) (f : TerminalFailure)
    (h0 : st.infra = none) (h : (execFold ext gate st plans).infra = some f) :
    f.time = gate := by
  induction plans generalizing st with
  | nil =>
    rw [show execFold ext gate st [] = st from rfl, h0] at h
    cases h
  | cons hd tl ih =>
    rw [show execFold ext gate st (hd :: tl) =
      execFold ext gate (execOneTarget ext gate st hd) tl from rfl] at h
    cases h1 : (execOneTarget ext gate st hd).infra with
    | none => exact ih _ h1 h
    | some g =>
      rw [execFold_of_infra ext gate _ tl (by rw [h1]; rfl)] at h
      rw [h1] at h
      injection h with h
      subst h
      exact execOne_infra_time ext gate st hd g h0 h1

/-- One executed (non-skipped) target either raises an infrastructure
failure or ends with its watermark at least the plan's max file time. -/
theorem execOne_raises_watermark (ext : ExtState) (gate : Nat) (st : ExecState)
    (plan : RContainer × List (String × Nat))
    (hinf : st.infra.isSome = false) (hne : plan.2.isEmpty = false) :
    (execOneTarget ext gate st plan).infra.isSome = true ∨
      maxFileTime plan.2 ≤ syncedOf (execOneTarget ext gate st plan).m plan.1.id := by
  unfold execOneTarget
  rw [if_neg (by simp [hinf, hne])]
  split
  · right
    simp only
    rw [advance_synced]
    simp
  · right
    simp only
    rw [advance_synced]
    simp
  · left
    rfl

/-- If the fold finishes without an infrastructure failure, every
nonempty plan's max file time is below the final synced watermark of its
container. -/
theorem execFold_covers (ext : ExtState) (gate : Nat) (st : ExecState)
    (plans : List (RContainer × List (String × Nat)))
    (hfin : (execFold ext gate st plans).infra = none) :
    ∀ plan ∈ plans, plan.2 = [] ∨
      maxFileTime plan.2 ≤ syncedOf (execFold ext gate st plans).m plan.1.id := by
  induction plans generalizing st with
  | nil => intro plan h; cases h
  | cons hd tl ih =>
    intro plan hmem
    have hstep : execFold ext gate st (hd :: tl) =
        execFold ext gate (execOneTarget ext gate st hd) tl := by
      unfold execFold
      simp [List.foldl_cons]
    rw [hstep] at hfin ⊢
    rcases List.mem_cons.mp hmem with h | h
    · subst h
      by_cases hinf : st.infra.isSome
      · exfalso
        have h1 : execOneTarget ext gate st plan = st := by
          unfold execOneTarget
          simp [hinf]
        rw [h1, execFold_of_infra ext gate st tl hinf] at hfin
        rw [hfin] at hinf
        cases hinf
      · by_cases hempty : plan.2.isEmpty
        · exact Or.inl (List.isEmpty_iff.mp hempty)
        · rcases execOne_raises_watermark ext gate st plan
              (eq_false_of_ne_true hinf) (eq_false_of_ne_true hempty) with hcase | hcase
          · exfalso
            rw [execFold_of_infra ext gate _ tl hcase] at hfin
            rw [hfin] at hcase
            cases hcase
          · right
            exact Nat.le_trans hcase (execFold_synced_le ext gate _ tl plan.1.id)
    · exact ih _ hfin plan h

/-! ## Plan lemmas -/

theorem allPaths_congr (spec : LUSpec) (m m' : Monitor) (hs : m'.sources = m.sources) :
    allPaths spec m' = allPaths spec m := by
  simp only [allPaths, msOf, hs]

theorem stopHit_congr (spec : LUSpec) (m m' : Monitor) (gate : Nat)
    (hs : m'.sources = m.sources) : stopHit spec m' gate = stopHit spec m gate := by
  unfold stopHit stopHits
  rw [allPaths_congr spec m m' hs]

theorem stopHit_some_gt (spec : LUSpec) (m : Monitor) (gate t : Nat)
    (h : stopHit spec m gate = some t) : gate < t := by
  unfold stopHit at h
  by_cases he : (stopHits spec m gate).isEmpty
  · rw [if_pos he] at h
    cases h
  · rw [if_neg he] at h
    injection h with h
    obtain ⟨hd, hmem⟩ : ∃ x, x ∈ stopHits spec m gate := by
      cases hl : stopHits spec m gate with
      | nil => exact absurd (by rw [hl]; rfl) he
      | cons a l => exact ⟨a, List.mem_cons_self _ _⟩
    have h1 : gate < hd.2 := by
      have h2 := (List.mem_filter.mp hmem).2
      simp only [Bool.and_eq_true, decide_eq_true_eq] at h2
      exact h2.2
    have h2 : hd.2 ≤ (stopHits spec m gate).foldl (fun a pt => max a pt.2) 0 :=
      foldl_max_mem Prod.snd _ 0 hd hmem
    omega

/-- After the watermark of a container has risen to cover all its pending
files, no files remain pending for it in any monitor with the same
sources. -/
theorem pendingFiles_nil_after (spec : LUSpec) (gate : Nat) (c : RContainer)
    (m m' : Monitor) (hs : m'.sources = m.sources)
    (hmono : syncedOf m c.id ≤ syncedOf m' c.id)
    (hcov : ∀ pt ∈ pendingFiles spec m gate c, pt.2 ≤ syncedOf m' c.id) :
    pendingFiles spec m' gate c = [] := by
  unfold pendingFiles
  rw [allPaths_congr spec m m' hs, List.filter_eq_nil_iff]
  intro pt hmem
  by_cases h3 : (underSomeSync spec.basePath spec.syncs pt.1 && decide (gate < pt.2) &&
      decide (c.startedAt < pt.2)) = true
  · by_cases hD : syncedOf m c.id < pt.2
    · have hptm : pt ∈ pendingFiles spec m gate c := by
        unfold pendingFiles
        refine List.mem_filter.mpr ⟨hmem, ?_⟩
        rw [h3]
        simpa using hD
      have h2 := hcov pt hptm
      simp only [h3, Bool.true_and, decide_eq_true_eq]
      omega
    · simp only [h3, Bool.true_and, decide_eq_true_eq]
      omega
  · have h3f : (underSomeSync spec.basePath spec.syncs pt.1 && decide (gate < pt.2) &&
        decide (c.startedAt < pt.2)) = false := eq_false_of_ne_true h3
    simp only [h3f, Bool.false_and]
    simp

/-! ## Equation lemmas for the reconcile pipeline -/

theorem planAndExecute_eq_fail (ext : ExtState) (m : Monitor) (gate : Nat)
    (reason msg : String) (hres : resolveSelector ext = .fail reason msg) :
    planAndExecute ext m gate =
      { monitor := { m with failedTerminalState := some ⟨reason, msg, gate⟩ }
        status := ⟨some ⟨reason, msg⟩, []⟩
        calls := []
        started := none
        completed := none
        logs := [reason ++ ": " ++ msg] } := by
  simp only [planAndExecute, hres]

theorem planAndExecute_eq_stop (ext : ExtState) (m : Monitor) (gate t : Nat)
    (cs : List RContainer) (hres : resolveSelector ext = .ok cs)
    (hstop : stopHit ext.spec m gate = some t) :
    planAndExecute ext m gate =
      { monitor := { m with failedTerminalState := some ⟨"UpdateStopped", "Updates stopped", t⟩ }
        status := ⟨some ⟨"UpdateStopped", "Updates stopped"⟩, []⟩
        calls := []
        started := none
        completed := none
        logs := ["UpdateStopped" ++ ": " ++ "Updates stopped"] } := by
  simp only [planAndExecute, hres, hstop]

theorem planAndExecute_eq_noop (ext : ExtState) (m : Monitor) (gate : Nat)
    (cs : List RContainer) (hres : resolveSelector ext = .ok cs)
    (hstop : stopHit ext.spec m gate = none)
    (hall : ((cs.filter RContainer.ready).map
      (fun c => (c, pendingFiles ext.spec m gate c))).all
        (fun plan => plan.2.isEmpty) = true) :
    planAndExecute ext m gate =
      { monitor := m
        status := ⟨none, synthContainers m cs false⟩
        calls := []
        started := none
        completed := none
        logs := [] } := by
  simp only [planAndExecute, hres, hstop, hall, if_true]

theorem planAndExecute_eq_manual (ext : ExtState) (m : Monitor) (gate : Nat)
    (cs : List RContainer) (hres : resolveSelector ext = .ok cs)
    (hstop : stopHit ext.spec m gate = none)
    (hall : ((cs.filter RContainer.ready).map
      (fun c => (c, pendingFiles ext.spec m gate c))).all
        (fun plan => plan.2.isEmpty) = false)
    (hman : (ext.updateMode == "manual" &&
      !(ext.triggerQueue.contains ext.manifestName)) = true) :
    planAndExecute ext m gate =
      { monitor := m
        status := ⟨none, synthContainers m cs true⟩
        calls := []
        started := none
        completed := none
        logs := [] } := by
  simp only [planAndExecute, hres, hstop, hall, hman, Bool.false_eq_true, if_false, if_true]

theorem planAndExecute_eq_update (ext : ExtState) (m : Monitor) (gate : Nat)
    (cs : List RContainer) (hres : resolveSelector ext = .ok cs)
    (hstop : stopHit ext.spec m gate = none)
    (hall : ((cs.filter RContainer.ready).map
      (fun c => (c, pendingFiles ext.spec m gate c))).all
        (fun plan => plan.2.isEmpty) = false)
    (hman : (ext.updateMode == "manual" &&
      !(ext.triggerQueue.contains ext.manifestName)) = false) :
    planAndExecute ext m gate =
      doUpdate ext m gate cs
        ((cs.filter RContainer.ready).map (fun c => (c, pendingFiles ext.spec m gate c))) := by
  simp only [planAndExecute, hres, hstop, hall, hman, Bool.false_eq_true, if_false]

theorem doUpdate_eq_infra (ext : ExtState) (m : Monitor) (gate : Nat)
    (cs : List RContainer) (plans : List (RContainer × List (String × Nat)))
    (f : TerminalFailure)
    (h : (execFold ext gate ⟨m, [], none, none⟩ plans).infra = some f) :
    doUpdate ext m gate cs plans =
      { monitor := { (execFold ext gate ⟨m, [], none, none⟩ plans).m with
          failedTerminalState := some f }
        status := ⟨some ⟨f.reason, f.message⟩, []⟩
        calls := (execFold ext gate ⟨m, [], none, none⟩ plans).calls
        started := some (cmap (fun plan => plan.2.map Prod.fst) plans)
        completed := some (execFold ext gate ⟨m, [], none, none⟩ plans).firstErr
        logs := [f.reason ++ ": " ++ f.message] } := by
  simp only [doUpdate, h]

theorem doUpdate_eq_ok (ext : ExtState) (m : Monitor) (gate : Nat)
    (cs : List RContainer) (plans : List (RContainer × List (String × Nat)))
    (h : (execFold ext gate ⟨m, [], none, none⟩ plans).infra = none) :
    doUpdate ext m gate cs plans =
      { monitor := (execFold ext gate ⟨m, [], none, none⟩ plans).m
        status := ⟨none, synthContainers (execFold ext gate ⟨m, [], none, none⟩ plans).m cs false⟩
        calls := (execFold ext gate ⟨m, [], none, none⟩ plans).calls
        started := some (cmap (fun plan => plan.2.map Prod.fst) plans)
        completed := some (execFold ext gate ⟨m, [], none, none⟩ plans).firstErr
        logs := [] } := by
  simp only [doUpdate, h]

theorem stepAfterAbsorb_eq_stored (ext : ExtState) (m : Monitor) (f : TerminalFailure)
    (hf : m.failedTerminalState = some f) (hgt : ¬ gateOf ext > f.time) :
    stepAfterAbsorb ext m =
      { monitor := m
        status := ⟨some ⟨f.reason, f.message⟩, []⟩
        calls := []
        started := none
        completed := none
        logs := [] } := by
  simp only [stepAfterAbsorb, hf]
  rw [if_neg hgt]

theorem stepAfterAbsorb_eq_cleared (ext : ExtState) (m : Monitor) (f : TerminalFailure)
    (hf : m.failedTerminalState = some f) (hgt : gateOf ext > f.time) :
    stepAfterAbsorb ext m =
      planAndExecute ext { m with failedTerminalState := none } (gateOf ext) := by
  simp only [stepAfterAbsorb, hf]
  rw [if_pos hgt]

theorem stepAfterAbsorb_eq_none (ext : ExtState) (m : Monitor)
    (hf : m.failedTerminalState = none) :
    stepAfterAbsorb ext m = planAndExecute ext m (gateOf ext) := by
  simp only [stepAfterAbsorb, hf]

/-! ## Idempotence of a reconcile pass -/

theorem planAndExecute_sources (ext : ExtState) (m : Monitor) (gate : Nat) :
    (planAndExecute ext m gate).monitor.sources = m.sources := by
  cases hres : resolveSelector ext with
  | fail reason msg => rw [planAndExecute_eq_fail ext m gate reason msg hres]
  | ok cs =>
    cases hstop : stopHit ext.spec m gate with
    | some t => rw [planAndExecute_eq_stop ext m gate t cs hres hstop]
    | none =>
      by_cases hall : ((cs.filter RContainer.ready).map
          (fun c => (c, pendingFiles ext.spec m gate c))).all
            (fun plan => plan.2.isEmpty) = true
      · rw [planAndExecute_eq_noop ext m gate cs hres hstop hall]
      · have hallf := eq_false_of_ne_true hall
        by_cases hman : (ext.updateMode == "manual" &&
            !(ext.triggerQueue.contains ext.manifestName)) = true
        · rw [planAndExecute_eq_manual ext m gate cs hres hstop hallf hman]
        · have hmanf := eq_false_of_ne_true hman
          rw [planAndExecute_eq_update ext m gate cs hres hstop hallf hmanf]
          cases hinf : (execFold ext gate ⟨m, [], none, none⟩
              ((cs.filter RContainer.ready).map
                (fun c => (c, pendingFiles ext.spec m gate c)))).infra with
          | some f =>
            rw [doUpdate_eq_infra ext m gate cs _ f hinf]
            exact execFold_sources ext gate _ _
          | none =>
            rw [doUpdate_eq_ok ext m gate cs _ hinf]
            exact execFold_sources ext gate _ _

/-- The heart of idempotence: after one plan-and-execute pass on a
monitor with no sticky failure, a second pass produces the same status
and makes no updater calls. -/
theorem planAndExecute_then (ext : ExtState) (m : Monitor)
    (hm : m.failedTerminalState = none) :
    (stepAfterAbsorb ext (planAndExecute ext m (gateOf ext)).monitor).status =
      (planAndExecute ext m (gateOf ext)).status ∧
    (stepAfterAbsorb ext (planAndExecute ext m (gateOf ext)).monitor).calls = [] := by
  cases hres : resolveSelector ext with
  | fail reason msg =>
    rw [planAndExecute_eq_fail ext m (gateOf ext) reason msg hres]
    rw [stepAfterAbsorb_eq_stored ext _ ⟨reason, msg, gateOf ext⟩ rfl (Nat.lt_irrefl _)]
    exact ⟨rfl, rfl⟩
  | ok cs =>
    cases hstop : stopHit ext.spec m (gateOf ext) with
    | some t =>
      rw [planAndExecute_eq_stop ext m (gateOf ext) t cs hres hstop]
      have hlt := stopHit_some_gt ext.spec m (gateOf ext) t hstop
      rw [stepAfterAbsorb_eq_stored ext _ ⟨"UpdateStopped", "Updates stopped", t⟩ rfl
        (by simp only; omega)]
      exact ⟨rfl, rfl⟩
    | none =>
      by_cases hall : ((cs.filter RContainer.ready).map
          (fun c => (c, pendingFiles ext.spec m (gateOf ext) c))).all
            (fun plan => plan.2.isEmpty) = true
      · rw [planAndExecute_eq_noop ext m (gateOf ext) cs hres hstop hall]
        rw [stepAfterAbsorb_eq_none ext m hm]
        rw [planAndExecute_eq_noop ext m (gateOf ext) cs hres hstop hall]
        exact ⟨rfl, rfl⟩
      · have hallf := eq_false_of_ne_true hall
        by_cases hman : (ext.updateMode == "manual" &&
            !(ext.triggerQueue.contains ext.manifestName)) = true
        · rw [planAndExecute_eq_manual ext m (gateOf ext) cs hres hstop hallf hman]
          rw [stepAfterAbsorb_eq_none ext m hm]
          rw [planAndExecute_eq_manual ext m (gateOf ext) cs hres hstop hallf hman]
          exact ⟨rfl, rfl⟩
        · have hmanf := eq_false_of_ne_true hman
          rw [planAndExecute_eq_update ext m (gateOf ext) cs hres hstop hallf hmanf]
          cases hinf : (execFold ext (gateOf ext) ⟨m, [], none, none⟩
              ((cs.filter RContainer.ready).map
                (fun c => (c, pendingFiles ext.spec m (gateOf ext) c)))).infra with
          | some f =>
            rw [doUpdate_eq_infra ext m (gateOf ext) cs _ f hinf]
            have htime : f.time = gateOf ext :=
              execFold_infra_time ext (gateOf ext) ⟨m, [], none, none⟩ _ f rfl hinf
            rw [stepAfterAbsorb_eq_stored ext _ f rfl (by omega)]
            exact ⟨rfl, rfl⟩
          | none =>
            rw [doUpdate_eq_ok ext m (gateOf ext) cs _ hinf]
            have hfm : (execFold ext (gateOf ext) ⟨m, [], none, none⟩
                ((cs.filter RContainer.ready).map
                  (fun c => (c, pendingFiles ext.spec m (gateOf ext) c)))).m.failedTerminalState
                = none := by
              rw [execFold_failedTerminal]
              exact hm
            rw [stepAfterAbsorb_eq_none ext _ hfm]
            have hsrc : (execFold ext (gateOf ext) ⟨m, [], none, none⟩
                ((cs.filter RContainer.ready).map
                  (fun c => (c, pendingFiles ext.spec m (gateOf ext) c)))).m.sources
                = m.sources := execFold_sources ext (gateOf ext) _ _
            have hstop2 : stopHit ext.spec (execFold ext (gateOf ext) ⟨m, [], none, none⟩
                ((cs.filter RContainer.ready).map
                  (fun c => (c, pendingFiles ext.spec m (gateOf ext) c)))).m (gateOf ext)
                = none := by
              rw [stopHit_congr ext.spec m _ (gateOf ext) hsrc]
              exact hstop
            have hall2 : ((cs.filter RContainer.ready).map
                (fun c => (c, pendingFiles ext.spec (execFold ext (gateOf ext) ⟨m, [], none, none⟩
                  ((cs.filter RContainer.ready).map
                    (fun c => (c, pendingFiles ext.spec m (gateOf ext) c)))).m (gateOf ext) c))).all
                  (fun plan => plan.2.isEmpty) = true := by
              rw [List.all_eq_true]
              intro plan hplan
              obtain ⟨c, hc, hceq⟩ := List.mem_map.mp hplan
              have hnil : pendingFiles ext.spec (execFold ext (gateOf ext) ⟨m, [], none, none⟩
                  ((cs.filter RContainer.ready).map
                    (fun c => (c, pendingFiles ext.spec m (gateOf ext) c)))).m (gateOf ext) c
                  = [] := by
                apply pendingFiles_nil_after ext.spec (gateOf ext) c m _ hsrc
                · exact execFold_synced_le ext (gateOf ext) ⟨m, [], none, none⟩ _ c.id
                · intro pt hpt
                  have hplanmem : (c, pendingFiles ext.spec m (gateOf ext) c) ∈
                      ((cs.filter RContainer.ready).map
                        (fun c => (c, pendingFiles ext.spec m (gateOf ext) c))) :=
                    List.mem_map.mpr ⟨c, hc, rfl⟩
                  rcases execFold_covers ext (gateOf ext) ⟨m, [], none, none⟩ _ hinf _
                      hplanmem with hcase | hcase
                  · simp only at hcase
                    rw [hcase] at hpt
                    cases hpt
                  · have hle : pt.2 ≤ maxFileTime (pendingFiles ext.spec m (gateOf ext) c) :=
                      foldl_max_mem Prod.snd _ 0 pt hpt
                    simp only at hcase
                    exact Nat.le_trans hle hcase
              rw [← hceq]
              simp only [hnil, List.isEmpty_nil]
            rw [planAndExecute_eq_noop ext _ (gateOf ext) cs hres hstop2 hall2]
            exact ⟨rfl, rfl⟩

/-- A second pass of the post-absorption step is a no-op. -/
theorem stepAfterAbsorb_then (ext : ExtState) (m1 : Monitor) :
    (stepAfterAbsorb ext (stepAfterAbsorb ext m1).monitor).status =
      (stepAfterAbsorb ext m1).status ∧
    (stepAfterAbsorb ext (stepAfterAbsorb ext m1).monitor).calls = [] := by
  cases hf : m1.failedTerminalState with
  | some f =>
    by_cases hgt : gateOf ext > f.time
    · rw [stepAfterAbsorb_eq_cleared ext m1 f hf hgt]
      exact planAndExecute_then ext { m1 with failedTerminalState := none } rfl
    · rw [stepAfterAbsorb_eq_stored ext m1 f hf hgt]
      rw [stepAfterAbsorb_eq_stored ext m1 f hf hgt]
      exact ⟨rfl, rfl⟩
  | none =>
    rw [stepAfterAbsorb_eq_none ext m1 hf]
    exact planAndExecute_then ext m1 hf

theorem stepAfterAbsorb_sources (ext : ExtState) (m : Monitor) :
    (stepAfterAbsorb ext m).monitor.sources = m.sources := by
  cases hf : m.failedTerminalState with
  | some f =>
    by_cases hgt : gateOf ext > f.time
    · rw [stepAfterAbsorb_eq_cleared ext m f hf hgt]
      exact planAndExecute_sources ext _ _
    · rw [stepAfterAbsorb_eq_stored ext m f hf hgt]
  | none =>
    rw [stepAfterAbsorb_eq_none ext m hf]
    exact planAndExecute_sources ext m _

/-- Claim C1: for every LiveUpdate object and every input state, running
Reconcile twice back-to-back with no intervening change to any referenced
external object leaves the LiveUpdate's resourceVersion identical (the
second pass computes the same status, so no status write happens and the
optimistic-concurrency version does not move) and causes no additional
container-updater call on the second pass. -/
theorem reconcile_idempotent (ext : ExtState) (m : Monitor) (rv : Nat) (s0 : LUStatus) :
    (reconcile ext (reconcile ext m).monitor).status = (reconcile ext m).status ∧
    (reconcile ext (reconcile ext m).monitor).calls = [] ∧
    rvAfter (rvAfter rv s0 (reconcile ext m).status) (reconcile ext m).status
        (reconcile ext (reconcile ext m).monitor).status =
      rvAfter rv s0 (reconcile ext m).status := by
  have hmain : (reconcile ext (reconcile ext m).monitor).status = (reconcile ext m).status ∧
      (reconcile ext (reconcile ext m).monitor).calls = [] := by
    cases hreq : requiredMissing ext with
    | some n =>
      simp only [reconcile, hreq]
      exact ⟨trivial, trivial⟩
    | none =>
      simp only [reconcile, hreq]
      have habs : absorbAll ext (stepAfterAbsorb ext (absorbAll ext m)).monitor =
          (stepAfterAbsorb ext (absorbAll ext m)).monitor :=
        absorbAll_fixed ext m _ (stepAfterAbsorb_sources ext (absorbAll ext m))
      rw [habs]
      exact stepAfterAbsorb_then ext (absorbAll ext m)
  refine ⟨hmain.1, hmain.2, ?_⟩
  rw [hmain.1]
  unfold rvAfter
  simp

/-! ## KubernetesApply validation (embedded from `kubernetesapply_types.go`)

`field.ErrorList` entries are modelled by their type, field path and
detail.  `KubernetesApplySpec` keeps the fields `Validate` reads
(`DiscoveryStrategy`, `YAML`, `ApplyCmd`) plus the other scalar data
fields; template-spec fields that `Validate` never touches are omitted. -/

/-- One entry of a `field.ErrorList`. -/
structure FieldError where
  errType : String
  fieldPath : String
  detail : String
  deriving DecidableEq, Repr

/-- `KubernetesApplyCmd{Args, Dir, Env}`. -/
structure KubernetesApplyCmd where
  args : List String
  dir : String
  env : List String
  deriving DecidableEq, Repr

/-- The fields of `KubernetesApplySpec` that validation reads, plus the
scalar companions (`imageMaps`, `timeout`, `cluster`). -/
structure KubernetesApplySpec where
  yaml : String
  imageMaps : List String
  timeout : Nat
  discoveryStrategy : String
  applyCmd : Option KubernetesApplyCmd
  cluster : String
  deriving DecidableEq, Repr

/-- A `KubernetesApply` object (spec only; `Validate` reads nothing else). -/
structure KubernetesApply where
  spec : KubernetesApplySpec
  deriving DecidableEq, Repr

/-- `validateAsSubfield`: `args` must be non-empty. -/
def KubernetesApplyCmd.validateAsSubfield (c : KubernetesApplyCmd)
    (rootField : String) : List FieldError :=
  if c.args.isEmpty then
    [⟨"Required", rootField ++ ".args", "args cannot be empty"⟩]
  else []

/-- `KubernetesApply.Validate`: the discovery strategy must be empty,
default or selectors-only, and exactly one of YAML or ApplyCmd must be
given (with ApplyCmd validated as a subfield). -/
def KubernetesApply.Validate (ka : KubernetesApply) : List FieldError :=
  (if !(ka.spec.discoveryStrategy = "" ∨ ka.spec.discoveryStrategy = "default" ∨
      ka.spec.discoveryStrategy = "selectors-only") then
    [⟨"NotSupported", "spec.discoveryStrategy",
      "supported values: default, selectors-only"⟩]
  else []) ++
  (if ka.spec.yaml ≠ "" then
    (match ka.spec.applyCmd with
     | some _ =>
       [⟨"Invalid", "spec.applyCmd", "must specify exactly ONE of .spec.yaml or .spec.applyCmd"⟩]
     | none => [])
  else
    (match ka.spec.applyCmd with
     | some c => c.validateAsSubfield "spec.applyCmd"
     | none =>
       [⟨"Required", "spec.yaml", "must specify exactly ONE of .spec.yaml or .spec.applyCmd"⟩]))

/-- Claim C10: `KubernetesApply.Validate` returns an empty error list if
and only if the discovery strategy is empty, "default" or
"selectors-only", and exactly one of a non-empty `spec.yaml` or a non-nil
`spec.applyCmd` is provided, with `applyCmd.args` non-empty whenever
`applyCmd` is the one provided. -/
theorem kubernetesApply_validate_empty_iff (ka : KubernetesApply) :
    KubernetesApply.Validate ka = [] ↔
      ((ka.spec.discoveryStrategy = "" ∨ ka.spec.discoveryStrategy = "default" ∨
          ka.spec.discoveryStrategy = "selectors-only") ∧
        ((ka.spec.yaml ≠ "" ∧ ka.spec.applyCmd = none) ∨
         (ka.spec.yaml = "" ∧ ∃ c, ka.spec.applyCmd = some c ∧ c.args ≠ []))) := by
  unfold KubernetesApply.Validate
  by_cases hds : (ka.spec.discoveryStrategy = "" ∨ ka.spec.discoveryStrategy = "default" ∨
      ka.spec.discoveryStrategy = "selectors-only")
  · by_cases hy : ka.spec.yaml = ""
    · cases hcmd : ka.spec.applyCmd with
      | none => simp [hds, hy, hcmd]
      | some c =>
        by_cases hargs : c.args.isEmpty
        · simp [hds, hy, hcmd, KubernetesApplyCmd.validateAsSubfield, hargs,
            List.isEmpty_iff.mp hargs]
        · simp [hds, hy, hcmd, KubernetesApplyCmd.validateAsSubfield, hargs]
          exact fun h => absurd (List.isEmpty_iff.mpr h) hargs
    · cases hcmd : ka.spec.applyCmd with
      | none => simp [hds, hy, hcmd]
      | some c => simp [hds, hy, hcmd]
  · simp [hds]

/-! ## Selector resolution claims -/

theorem mem_cmap {α β : Type} (f : α → List β) (l : List α) (x : β) :
    x ∈ cmap f l ↔ ∃ a ∈ l, x ∈ f a := by
  induction l with
  | nil => simp [cmap]
  | cons hd tl ih =>
    simp [cmap, ih]

/-- Claim C7, counterexample: the claim's literal-equality reading of the
image arm is false of the program.  With only the selector's `image` set
to `local-registry:12345/frontend-image:some-tag`, the container running
`local-registry:12345/frontend-image:my-tag` IS picked (as
`TestKubernetesImageSelector` asserts: the container is selected and
synced), even though its image does not literally equal the selector's
image, so the claimed biconditional fails at this input. -/
theorem kubernetesSelector_literal_image_counterexample :
    ¬ (((⟨"pod-1", "default", [],
          [⟨"main", "main-id", "local-registry:12345/frontend-image:my-tag", .running 0⟩]⟩,
         ⟨"main", "main-id", "local-registry:12345/frontend-image:my-tag", .running 0⟩) ∈
          matchedContainers
            ⟨"frontend-discovery", "frontend-apply", "", "",
              "local-registry:12345/frontend-image:some-tag"⟩
            []
            ⟨[⟨"pod-1", "default", [],
              [⟨"main", "main-id", "local-registry:12345/frontend-image:my-tag",
                .running 0⟩]⟩]⟩) ↔
        ((⟨"pod-1", "default", [],
          [⟨"main", "main-id", "local-registry:12345/frontend-image:my-tag", .running 0⟩]⟩ : Pod) ∈
            [⟨"pod-1", "default", [],
              [⟨"main", "main-id", "local-registry:12345/frontend-image:my-tag",
                .running 0⟩]⟩] ∧
         (⟨"main", "main-id", "local-registry:12345/frontend-image:my-tag",
            .running 0⟩ : KContainer) ∈
            [⟨"main", "main-id", "local-registry:12345/frontend-image:my-tag", .running 0⟩] ∧
         ((("" : String) ≠ "" ∧ ("main" : String) = "") ∨
          (("local-registry:12345/frontend-image:some-tag" : String) ≠ "" ∧
            ("local-registry:12345/frontend-image:my-tag" : String) =
              "local-registry:12345/frontend-image:some-tag") ∨
          ((("" : String) ≠ "") ∧
            (alookup ([] : List (String × ImageMap)) "").map ImageMap.imageFromCluster =
              some "local-registry:12345/frontend-image:my-tag")))) := by
  decide

/-- Claim C7 (amended): under the Kubernetes selector, a pod container is
picked if and only if its name matches the selector's `containerName`, or
its image matches the selector's `image` by image name with the tag
ignored (as `TestKubernetesImageSelector` shows for images differing only
by tag), or its image resolves via the named ImageMap's
`imageFromCluster` to the pod container's image (init containers are
never scanned); in particular, with only the `image` field set, a
container whose image name (tags stripped) differs from the selector's
image name is never picked.  The last two conjuncts replay the cited
test: the tag-mismatched container is selected, updated once, and its
`lastFileTimeSynced` is set to the event time. -/
theorem kubernetesSelector_picks_iff (sel : KSelector) (ims : List (String × ImageMap))
    (kd : KDiscovery) (pod : Pod) (c : KContainer) :
    ((pod, c) ∈ matchedContainers sel ims kd ↔
      pod ∈ kd.pods ∧ c ∈ pod.containers ∧
        ((sel.containerName ≠ "" ∧ c.name = sel.containerName) ∨
         (sel.image ≠ "" ∧ imageName c.image = imageName sel.image) ∨
         (sel.imageMapName ≠ "" ∧
           (alookup ims sel.imageMapName).map ImageMap.imageFromCluster = some c.image))) ∧
    (sel.containerName = "" → sel.imageMapName = "" →
      imageName c.image ≠ imageName sel.image →
      (pod, c) ∉ matchedContainers sel ims kd) ∧
    (reconcile (frontendExt (.kubernetes ⟨"frontend-discovery", "frontend-apply", "", "",
        "local-registry:12345/frontend-image:some-tag"⟩) 10 0 (.running 10)
      [⟨11, ["/base/a.txt"]⟩] "auto" [] []) Monitor.initial).calls =
      [⟨"main-id", ["/base/a.txt"], [], true⟩] ∧
    (reconcile (frontendExt (.kubernetes ⟨"frontend-discovery", "frontend-apply", "", "",
        "local-registry:12345/frontend-image:some-tag"⟩) 10 0 (.running 10)
      [⟨11, ["/base/a.txt"]⟩] "auto" [] []) Monitor.initial).status =
      ⟨none, [⟨"pod-1", "default", "main", "main-id", 11, none, ""⟩]⟩ := by
  have hiff : (pod, c) ∈ matchedContainers sel ims kd ↔
      pod ∈ kd.pods ∧ c ∈ pod.containers ∧
        ((sel.containerName ≠ "" ∧ c.name = sel.containerName) ∨
         (sel.image ≠ "" ∧ imageName c.image = imageName sel.image) ∨
         (sel.imageMapName ≠ "" ∧
           (alookup ims sel.imageMapName).map ImageMap.imageFromCluster = some c.image)) := by
    unfold matchedContainers
    rw [mem_cmap]
    constructor
    · rintro ⟨pod1, hpod1, hmem⟩
      obtain ⟨c1, hc1, heq⟩ := List.mem_map.mp hmem
      obtain ⟨hc1m, hc1sel⟩ := List.mem_filter.mp hc1
      injection heq with heq1 heq2
      subst heq1
      subst heq2
      refine ⟨hpod1, hc1m, ?_⟩
      unfold matchesKSelector at hc1sel
      simp only [Bool.or_eq_true, Bool.and_eq_true, bne_iff_ne, beq_iff_eq,
        Option.map_eq_some'] at hc1sel
      simp only [Option.map_eq_some']
      tauto
    · rintro ⟨hpod, hc, hmatch⟩
      refine ⟨pod, hpod, List.mem_map.mpr ⟨c, List.mem_filter.mpr ⟨hc, ?_⟩, rfl⟩⟩
      simp only [Option.map_eq_some'] at hmatch
      unfold matchesKSelector
      simp only [Bool.or_eq_true, Bool.and_eq_true, bne_iff_ne, beq_iff_eq,
        Option.map_eq_some']
      tauto
  refine ⟨hiff, ?_, rfl, rfl⟩
  intro hname hmap himg hmem
  rcases (hiff.mp hmem).2.2 with ⟨h, _⟩ | ⟨_, h⟩ | ⟨h, _⟩
  · exact h hname
  · exact himg h
  · exact h hmap

/-- Claim C9: if the KubernetesApply named by the selector does not exist
at reconcile time, the reconcile sets `status.failed` with reason
`ObjectNotFound`, makes no container-updater call, writes nothing to
stdout, and the state is steady: reconciling again while the object is
still missing produces the identical result. -/
theorem missing_apply_objectNotFound (ext : ExtState) (m : Monitor) (s : KSelector)
    (hsel : ext.spec.selector = .kubernetes s)
    (hsrcs : missingSource ext ext.spec.sources = none)
    (hdisc : (alookup ext.kubernetesDiscoveries s.discoveryName).isSome = true)
    (hname : s.applyName ≠ "")
    (happly : alookup ext.kubernetesApplies s.applyName = none) :
    (reconcile ext m).status.failed =
      some ⟨"ObjectNotFound", "Not found: " ++ s.applyName⟩ ∧
    (reconcile ext m).calls = [] ∧
    (reconcile ext m).logs = [] ∧
    reconcile ext (reconcile ext m).monitor = reconcile ext m := by
  have hreq : requiredMissing ext = some s.applyName := by
    unfold requiredMissing
    rw [hsrcs, hsel]
    simp only
    rw [if_neg (by simp [Option.isNone_iff_eq_none, ← Option.not_isSome_iff_eq_none, hdisc])]
    rw [if_pos ⟨hname, by simp [happly]⟩]
  simp only [reconcile, hreq]
  exact ⟨trivial, trivial, trivial, trivial⟩

/-- Claim C8: when an update is performed, the command list passed to the
container updater is, in spec order, exactly the execs that either have
no triggerPaths or have a triggerPath matched by some changed file; an
exec whose triggerPaths match none of the changed files is skipped.
Stated on the Docker Compose frontend fixture with an arbitrary exec
list and the single changed file `a.txt`, together with the general
membership characterization of the filter. -/
theorem update_cmds_are_triggered_execs (execs : List Exec) :
    (reconcile (dcFrontendExt 10 10 [⟨11, ["/base/a.txt"]⟩] execs []) Monitor.initial).calls =
      [⟨"main-id", ["/base/a.txt"],
        (execs.filter (fun e => e.triggerPaths.isEmpty ||
          e.triggerPaths.any (fun tp => ["/base/a.txt"].any (matchesTriggerPath "/base" tp)))).map
            Exec.args,
        true⟩] ∧
    ∀ e : Exec,
      (e ∈ execs.filter (fun e => e.triggerPaths.isEmpty ||
          e.triggerPaths.any (fun tp => ["/base/a.txt"].any (matchesTriggerPath "/base" tp))) ↔
        e ∈ execs ∧ (e.triggerPaths = [] ∨
          ∃ tp ∈ e.triggerPaths, matchesTriggerPath "/base" tp "/base/a.txt" = true)) := by
  constructor
  · rfl
  · intro e
    rw [List.mem_filter]
    simp [List.any_eq_true, List.isEmpty_iff]

/-! ## Stop-path scenario (claim C2)

The frontend fixture with a stop-path event at `t1`, mirroring
`TestStopPathConsumedByImageBuild`: build and container start at `t0`,
stop event at `t1`, a superseding image build at `t2`, and a fresh file
event at `t3`. -/

/-- The stop-path fixture: image built at `tb`, container running since
`t0`, with the given file events. -/
def stopExt (tb t0 : Nat) (evs : List FileEvent) : ExtState :=
  frontendExt (.kubernetes frontendKSel) tb 0 (.running t0) evs "auto" [] []

/-- Claim C2: after a file event touches a declared stopPath at time
`t1`, `status.failed` is set with reason `UpdateStopped` and no reconcile
makes a container-updater call, until the source's
`imageMap.BuildStartTime` or the selected
`KubernetesApply.LastApplyStartTime` advances past `t1`; after such an
advance (build at `t2 > t1`, or equally an apply at `t2 > t1`),
`status.failed` becomes nil, and a subsequent file event at `t3` newer
than the advance produces exactly one updater call. -/
theorem stopPath_stops_until_superseded (t0 t1 t2 t3 : Nat)
    (h01 : t0 < t1) (h12 : t1 < t2) (h23 : t2 < t3) :
    (reconcile (stopExt t0 t0 [⟨t1, ["/base/stop.txt"]⟩]) Monitor.initial).status.failed =
      some ⟨"UpdateStopped", "Updates stopped"⟩ ∧
    (reconcile (stopExt t0 t0 [⟨t1, ["/base/stop.txt"]⟩]) Monitor.initial).calls = [] ∧
    (reconcile (stopExt t0 t0 [⟨t1, ["/base/stop.txt"]⟩])
        (reconcile (stopExt t0 t0 [⟨t1, ["/base/stop.txt"]⟩]) Monitor.initial).monitor).status.failed =
      some ⟨"UpdateStopped", "Updates stopped"⟩ ∧
    (reconcile (stopExt t0 t0 [⟨t1, ["/base/stop.txt"]⟩])
        (reconcile (stopExt t0 t0 [⟨t1, ["/base/stop.txt"]⟩]) Monitor.initial).monitor).calls = [] ∧
    (reconcile (stopExt t2 t0 [⟨t1, ["/base/stop.txt"]⟩])
        (reconcile (stopExt t0 t0 [⟨t1, ["/base/stop.txt"]⟩]) Monitor.initial).monitor).status.failed =
      none ∧
    (reconcile (stopExt t2 t0 [⟨t1, ["/base/stop.txt"]⟩])
        (reconcile (stopExt t0 t0 [⟨t1, ["/base/stop.txt"]⟩]) Monitor.initial).monitor).calls = [] ∧
    (reconcile (frontendExt (.kubernetes frontendKSel) t0 t2 (.running t0)
        [⟨t1, ["/base/stop.txt"]⟩] "auto" [] [])
        (reconcile (stopExt t0 t0 [⟨t1, ["/base/stop.txt"]⟩]) Monitor.initial).monitor).status.failed =
      none ∧
    (reconcile (frontendExt (.kubernetes frontendKSel) t0 t2 (.running t0)
        [⟨t1, ["/base/stop.txt"]⟩] "auto" [] [])
        (reconcile (stopExt t0 t0 [⟨t1, ["/base/stop.txt"]⟩]) Monitor.initial).monitor).calls = [] ∧
    (reconcile (stopExt t2 t0 [⟨t1, ["/base/stop.txt"]⟩, ⟨t3, ["/base/a.txt"]⟩])
        (reconcile (stopExt t2 t0 [⟨t1, ["/base/stop.txt"]⟩])
          (reconcile (stopExt t0 t0 [⟨t1, ["/base/stop.txt"]⟩]) Monitor.initial).monitor).monitor).calls =
      [⟨"main-id", ["/base/a.txt"], [], true⟩] := by
  have f1 : (0:Nat) < t1 := by omega
  have f2 : ¬ (t1 < t1) := by omega
  have f3 : ¬ (t1 < t0) := by omega
  have f4 : ¬ (t2 < t1) := by omega
  have f5 : t1 < t2 := by omega
  have f6 : t1 < t3 := by omega
  have f7 : t2 < t3 := by omega
  have f8 : t0 < t3 := by omega
  have f9 : max t1 t3 = t3 := by omega
  have f10 : t3 ≠ 0 := by omega
  have f11 : (0:Nat) < t3 := by omega
  have e1 : reconcile (stopExt t0 t0 [⟨t1, ["/base/stop.txt"]⟩]) Monitor.initial =
      { monitor := ⟨[("frontend-fw", ⟨[("/base/stop.txt", t1)], t1⟩)],
          some ⟨"UpdateStopped", "Updates stopped", t1⟩, []⟩
        status := ⟨some ⟨"UpdateStopped", "Updates stopped"⟩, []⟩
        calls := []
        started := none
        completed := none
        logs := ["UpdateStopped" ++ ": " ++ "Updates stopped"] } := by
    simp [reconcile, requiredMissing, missingSource, stopExt, frontendExt, frontendSpec,
      frontendKSel, absorbAll, absorbOne, alookup, upsertA, stepAfterAbsorb, gateOf,
      buildsMax, planAndExecute, resolveSelector, resolveK8s, matchedContainers,
      matchesKSelector, cmap, classifyContainer, isCrashLooping, isTerminatedState,
      isRunningState, stopHit, stopHits, allPaths, msOf, matchesStopPath, joinPath,
      Monitor.initial, f1, h01, Nat.zero_max, Nat.max_zero, List.foldl_cons, List.foldl_nil]
  have e2 : reconcile (stopExt t0 t0 [⟨t1, ["/base/stop.txt"]⟩])
      (⟨[("frontend-fw", ⟨[("/base/stop.txt", t1)], t1⟩)],
        some ⟨"UpdateStopped", "Updates stopped", t1⟩, []⟩ : Monitor) =
      { monitor := ⟨[("frontend-fw", ⟨[("/base/stop.txt", t1)], t1⟩)],
          some ⟨"UpdateStopped", "Updates stopped", t1⟩, []⟩
        status := ⟨some ⟨"UpdateStopped", "Updates stopped"⟩, []⟩
        calls := []
        started := none
        completed := none
        logs := [] } := by
    simp [reconcile, requiredMissing, missingSource, stopExt, frontendExt, frontendSpec,
      frontendKSel, absorbAll, absorbOne, alookup, upsertA, stepAfterAbsorb, gateOf,
      buildsMax, Monitor.initial, f2, f3, Nat.zero_max, Nat.max_zero,
      List.foldl_cons, List.foldl_nil]
  have e3 : reconcile (stopExt t2 t0 [⟨t1, ["/base/stop.txt"]⟩])
      (⟨[("frontend-fw", ⟨[("/base/stop.txt", t1)], t1⟩)],
        some ⟨"UpdateStopped", "Updates stopped", t1⟩, []⟩ : Monitor) =
      { monitor := ⟨[("frontend-fw", ⟨[("/base/stop.txt", t1)], t1⟩)], none, []⟩
        status := ⟨none, [⟨"pod-1", "default", "main", "main-id", 0, none, ""⟩]⟩
        calls := []
        started := none
        completed := none
        logs := [] } := by
    simp [reconcile, requiredMissing, missingSource, stopExt, frontendExt, frontendSpec,
      frontendKSel, absorbAll, absorbOne, alookup, upsertA, stepAfterAbsorb, gateOf,
      buildsMax, planAndExecute, resolveSelector, resolveK8s, matchedContainers,
      matchesKSelector, cmap, classifyContainer, isCrashLooping, isTerminatedState,
      isRunningState, stopHit, stopHits, allPaths, msOf, matchesStopPath, joinPath,
      Monitor.initial, pendingFiles, underSomeSync, synthContainers, syncedOf,
      execErrOf, cmOf, f2, f4, f5, Nat.zero_max, Nat.max_zero,
      List.foldl_cons, List.foldl_nil]
  have e5 : reconcile (frontendExt (.kubernetes frontendKSel) t0 t2 (.running t0)
      [⟨t1, ["/base/stop.txt"]⟩] "auto" [] [])
      (⟨[("frontend-fw", ⟨[("/base/stop.txt", t1)], t1⟩)],
        some ⟨"UpdateStopped", "Updates stopped", t1⟩, []⟩ : Monitor) =
      { monitor := ⟨[("frontend-fw", ⟨[("/base/stop.txt", t1)], t1⟩)], none, []⟩
        status := ⟨none, [⟨"pod-1", "default", "main", "main-id", 0, none, ""⟩]⟩
        calls := []
        started := none
        completed := none
        logs := [] } := by
    have g3 : t1 ≤ t2 := by omega
    simp [reconcile, requiredMissing, missingSource, stopExt, frontendExt, frontendSpec,
      frontendKSel, absorbAll, absorbOne, alookup, upsertA, stepAfterAbsorb, gateOf,
      buildsMax, planAndExecute, resolveSelector, resolveK8s, matchedContainers,
      matchesKSelector, cmap, classifyContainer, isCrashLooping, isTerminatedState,
      isRunningState, stopHit, stopHits, allPaths, msOf, matchesStopPath, joinPath,
      Monitor.initial, pendingFiles, underSomeSync, synthContainers, syncedOf,
      execErrOf, cmOf, h01, f2, f3, f4, f5, g3, Nat.zero_max, Nat.max_zero,
      List.foldl_cons, List.foldl_nil]
  have e4 : (reconcile (stopExt t2 t0 [⟨t1, ["/base/stop.txt"]⟩, ⟨t3, ["/base/a.txt"]⟩])
      (⟨[("frontend-fw", ⟨[("/base/stop.txt", t1)], t1⟩)], none, []⟩ : Monitor)).calls =
      [⟨"main-id", ["/base/a.txt"], [], true⟩] := by
    simp [reconcile, requiredMissing, missingSource, stopExt, frontendExt, frontendSpec,
      frontendKSel, absorbAll, absorbOne, alookup, upsertA, stepAfterAbsorb, gateOf,
      buildsMax, planAndExecute, resolveSelector, resolveK8s, matchedContainers,
      matchesKSelector, cmap, classifyContainer, isCrashLooping, isTerminatedState,
      isRunningState, stopHit, stopHits, allPaths, msOf, matchesStopPath, joinPath,
      Monitor.initial, pendingFiles, underSomeSync, synthContainers, syncedOf,
      execErrOf, cmOf, doUpdate, execFold, execOneTarget, theCall, execsToRun,
      maxFileTime, advanceContainer, f2, f4, f6, f7, f8, f9, f10, f11,
      Nat.zero_max, Nat.max_zero, List.foldl_cons, List.foldl_nil]
  rw [e1]
  simp only
  rw [e2, e3, e5]
  simp only
  rw [e4]
  refine ⟨?_, ?_, ?_, ?_, ?_, ?_, ?_, ?_, ?_⟩ <;> first | rfl | trivial

/-! ## Crash-loop scenario (claim C3) -/

/-- Claim C3: if the selected pod container reports
`Waiting{CrashLoopBackOff}` on some reconcile, `status.failed` is set
with reason `CrashLoopBackOff` and no container-updater call is made; on
a later reconcile with the same build and apply clocks, even after the
discovery snapshot shows that container Running again, `status.failed`
still has reason `CrashLoopBackOff` and still no call is made. -/
theorem crashLoopBackOff_is_sticky (t0 t1 : Nat) (h01 : t0 < t1) :
    (reconcile (frontendExt (.kubernetes frontendKSel) t0 0 (.waiting "CrashLoopBackOff")
        [⟨t1, ["/base/a.txt"]⟩] "auto" [] []) Monitor.initial).status.failed =
      some ⟨"CrashLoopBackOff", "Container for live update is crash looping."⟩ ∧
    (reconcile (frontendExt (.kubernetes frontendKSel) t0 0 (.waiting "CrashLoopBackOff")
        [⟨t1, ["/base/a.txt"]⟩] "auto" [] []) Monitor.initial).calls = [] ∧
    (reconcile (frontendExt (.kubernetes frontendKSel) t0 0 (.running t0)
        [⟨t1, ["/base/a.txt"]⟩] "auto" [] [])
      (reconcile (frontendExt (.kubernetes frontendKSel) t0 0 (.waiting "CrashLoopBackOff")
        [⟨t1, ["/base/a.txt"]⟩] "auto" [] []) Monitor.initial).monitor).status.failed =
      some ⟨"CrashLoopBackOff", "Container for live update is crash looping."⟩ ∧
    (reconcile (frontendExt (.kubernetes frontendKSel) t0 0 (.running t0)
        [⟨t1, ["/base/a.txt"]⟩] "auto" [] [])
      (reconcile (frontendExt (.kubernetes frontendKSel) t0 0 (.waiting "CrashLoopBackOff")
        [⟨t1, ["/base/a.txt"]⟩] "auto" [] []) Monitor.initial).monitor).calls = [] := by
  have f1 : (0:Nat) < t1 := by omega
  have f2 : ¬ (t1 < t1) := by omega
  have f3 : ¬ (t0 < t0) := by omega
  have e1 : reconcile (frontendExt (.kubernetes frontendKSel) t0 0 (.waiting "CrashLoopBackOff")
      [⟨t1, ["/base/a.txt"]⟩] "auto" [] []) Monitor.initial =
      { monitor := ⟨[("frontend-fw", ⟨[("/base/a.txt", t1)], t1⟩)],
          some ⟨"CrashLoopBackOff", "Container for live update is crash looping.", t0⟩, []⟩
        status := ⟨some ⟨"CrashLoopBackOff", "Container for live update is crash looping."⟩, []⟩
        calls := []
        started := none
        completed := none
        logs := ["CrashLoopBackOff" ++ ": " ++ "Container for live update is crash looping."] } := by
    simp [reconcile, requiredMissing, missingSource, frontendExt, frontendSpec,
      frontendKSel, absorbAll, absorbOne, alookup, upsertA, stepAfterAbsorb, gateOf,
      buildsMax, planAndExecute, resolveSelector, resolveK8s, matchedContainers,
      matchesKSelector, cmap, classifyContainer, isCrashLooping, isTerminatedState,
      isRunningState, stopHit, stopHits, allPaths, msOf, matchesStopPath, joinPath,
      Monitor.initial, f1, Nat.zero_max, Nat.max_zero, List.foldl_cons, List.foldl_nil]
  have e2 : reconcile (frontendExt (.kubernetes frontendKSel) t0 0 (.running t0)
      [⟨t1, ["/base/a.txt"]⟩] "auto" [] [])
      (⟨[("frontend-fw", ⟨[("/base/a.txt", t1)], t1⟩)],
        some ⟨"CrashLoopBackOff", "Container for live update is crash looping.", t0⟩, []⟩ : Monitor) =
      { monitor := ⟨[("frontend-fw", ⟨[("/base/a.txt", t1)], t1⟩)],
          some ⟨"CrashLoopBackOff", "Container for live update is crash looping.", t0⟩, []⟩
        status := ⟨some ⟨"CrashLoopBackOff", "Container for live update is crash looping."⟩, []⟩
        calls := []
        started := none
        completed := none
        logs := [] } := by
    simp [reconcile, requiredMissing, missingSource, frontendExt, frontendSpec,
      frontendKSel, absorbAll, absorbOne, alookup, upsertA, stepAfterAbsorb, gateOf,
      buildsMax, Monitor.initial, f2, f3, Nat.zero_max, Nat.max_zero,
      List.foldl_cons, List.foldl_nil]
  rw [e1]
  simp only
  rw [e2]
  refine ⟨?_, ?_, ?_, ?_⟩ <;> first | rfl | trivial

/-! ## Manual-mode scenario (claim C5) -/

/-- Claim C5: with update-mode annotation `manual` and the manifest name
not in the trigger-queue ConfigMap, a pending file change produces no
container-updater call and the status container reports
`waiting.reason == "Trigger"`; once the manifest name is added to the
trigger queue, the next reconcile performs exactly one updater call and
records `lastFileTimeSynced` equal to the file's change time. -/
theorem manual_mode_waits_for_trigger (t0 t1 : Nat) (h01 : t0 < t1) :
    (reconcile (frontendExt (.kubernetes frontendKSel) t0 0 (.running t0)
        [⟨t1, ["/base/a.txt"]⟩] "manual" [] []) Monitor.initial).calls = [] ∧
    (reconcile (frontendExt (.kubernetes frontendKSel) t0 0 (.running t0)
        [⟨t1, ["/base/a.txt"]⟩] "manual" [] []) Monitor.initial).status =
      ⟨none, [⟨"pod-1", "default", "main", "main-id", 0, some "Trigger", ""⟩]⟩ ∧
    (reconcile (frontendExt (.kubernetes frontendKSel) t0 0 (.running t0)
        [⟨t1, ["/base/a.txt"]⟩] "manual" ["frontend"] [])
      (reconcile (frontendExt (.kubernetes frontendKSel) t0 0 (.running t0)
        [⟨t1, ["/base/a.txt"]⟩] "manual" [] []) Monitor.initial).monitor).calls =
      [⟨"main-id", ["/base/a.txt"], [], true⟩] ∧
    (reconcile (frontendExt (.kubernetes frontendKSel) t0 0 (.running t0)
        [⟨t1, ["/base/a.txt"]⟩] "manual" ["frontend"] [])
      (reconcile (frontendExt (.kubernetes frontendKSel) t0 0 (.running t0)
        [⟨t1, ["/base/a.txt"]⟩] "manual" [] []) Monitor.initial).monitor).status =
      ⟨none, [⟨"pod-1", "default", "main", "main-id", t1, none, ""⟩]⟩ := by
  have f1 : (0:Nat) < t1 := by omega
  have f2 : ¬ (t1 < t1) := by omega
  have f3 : t0 < t1 := h01
  have f4 : max (0:Nat) t1 = t1 := by omega
  have f5 : t1 ≠ 0 := by omega
  have e1 : reconcile (frontendExt (.kubernetes frontendKSel) t0 0 (.running t0)
      [⟨t1, ["/base/a.txt"]⟩] "manual" [] []) Monitor.initial =
      { monitor := ⟨[("frontend-fw", ⟨[("/base/a.txt", t1)], t1⟩)], none, []⟩
        status := ⟨none, [⟨"pod-1", "default", "main", "main-id", 0, some "Trigger", ""⟩]⟩
        calls := []
        started := none
        completed := none
        logs := [] } := by
    simp [reconcile, requiredMissing, missingSource, frontendExt, frontendSpec,
      frontendKSel, absorbAll, absorbOne, alookup, upsertA, stepAfterAbsorb, gateOf,
      buildsMax, planAndExecute, resolveSelector, resolveK8s, matchedContainers,
      matchesKSelector, cmap, classifyContainer, isCrashLooping, isTerminatedState,
      isRunningState, stopHit, stopHits, allPaths, msOf, matchesStopPath, joinPath,
      Monitor.initial, pendingFiles, underSomeSync, synthContainers, syncedOf,
      execErrOf, cmOf, f1, f3, f5, Nat.zero_max, Nat.max_zero,
      List.foldl_cons, List.foldl_nil]
  have e2 : reconcile (frontendExt (.kubernetes frontendKSel) t0 0 (.running t0)
      [⟨t1, ["/base/a.txt"]⟩] "manual" ["frontend"] [])
      (⟨[("frontend-fw", ⟨[("/base/a.txt", t1)], t1⟩)], none, []⟩ : Monitor) =
      { monitor := ⟨[("frontend-fw", ⟨[("/base/a.txt", t1)], t1⟩)], none,
          [("main-id", ⟨t1, ""⟩)]⟩
        status := ⟨none, [⟨"pod-1", "default", "main", "main-id", t1, none, ""⟩]⟩
        calls := [⟨"main-id", ["/base/a.txt"], [], true⟩]
        started := some ["/base/a.txt"]
        completed := some none
        logs := [] } := by
    simp [reconcile, requiredMissing, missingSource, frontendExt, frontendSpec,
      frontendKSel, absorbAll, absorbOne, alookup, upsertA, stepAfterAbsorb, gateOf,
      buildsMax, planAndExecute, resolveSelector, resolveK8s, matchedContainers,
      matchesKSelector, cmap, classifyContainer, isCrashLooping, isTerminatedState,
      isRunningState, stopHit, stopHits, allPaths, msOf, matchesStopPath, joinPath,
      Monitor.initial, pendingFiles, underSomeSync, synthContainers, syncedOf,
      execErrOf, cmOf, doUpdate, execFold, execOneTarget, theCall, execsToRun,
      maxFileTime, advanceContainer, f1, f2, f3, f4, f5, Nat.zero_max, Nat.max_zero,
      List.foldl_cons, List.foldl_nil]
  rw [e1]
  simp only
  rw [e2]
  refine ⟨?_, ?_, ?_, ?_⟩ <;> first | rfl | trivial

/-! ## Waiting-container scenario (claim C6) -/

/-- The frontend fixture where the discovered pod's only (non-init)
container is Running but has no ID yet, as in `TestWaitingContainerNoID`. -/
def noIdExt (t0 t1 : Nat) : ExtState :=
  { frontendExt (.kubernetes frontendKSel) t0 0 (.running t0)
      [⟨t1, ["/base/a.txt"]⟩] "auto" [] [] with
    kubernetesDiscoveries := [("frontend-discovery",
      ⟨[⟨"pod-1", "default",
        [⟨"main-init", "main-id", "busybox", .running t0⟩],
        [⟨"main", "", "local-registry:12345/frontend-image:my-tag", .running t0⟩]⟩]⟩)] }

/-- Claim C6: a selected pod container that is Waiting, or has an empty
ID, receives no container-updater call and is not a failure: its status
entry records `waiting.reason == "ContainerWaiting"` while
`status.failed` stays nil; once the container reports Running with an
ID, the next reconcile makes exactly one updater call carrying the
pending file change. -/
theorem waiting_container_not_updated (t0 t1 : Nat) (h01 : t0 < t1) :
    (reconcile (frontendExt (.kubernetes frontendKSel) t0 0 (.waiting "")
        [⟨t1, ["/base/a.txt"]⟩] "auto" [] []) Monitor.initial).calls = [] ∧
    (reconcile (frontendExt (.kubernetes frontendKSel) t0 0 (.waiting "")
        [⟨t1, ["/base/a.txt"]⟩] "auto" [] []) Monitor.initial).status =
      ⟨none, [⟨"pod-1", "default", "main", "main-id", 0, some "ContainerWaiting", ""⟩]⟩ ∧
    (reconcile (noIdExt t0 t1) Monitor.initial).calls = [] ∧
    (reconcile (noIdExt t0 t1) Monitor.initial).status =
      ⟨none, [⟨"pod-1", "default", "main", "", 0, some "ContainerWaiting", ""⟩]⟩ ∧
    (reconcile (frontendExt (.kubernetes frontendKSel) t0 0 (.running t0)
        [⟨t1, ["/base/a.txt"]⟩] "auto" [] [])
      (reconcile (frontendExt (.kubernetes frontendKSel) t0 0 (.waiting "")
        [⟨t1, ["/base/a.txt"]⟩] "auto" [] []) Monitor.initial).monitor).calls =
      [⟨"main-id", ["/base/a.txt"], [], true⟩] := by
  have f1 : (0:Nat) < t1 := by omega
  have f2 : ¬ (t1 < t1) := by omega
  have f3 : t0 < t1 := h01
  have f4 : max (0:Nat) t1 = t1 := by omega
  have f5 : t1 ≠ 0 := by omega
  have e1 : reconcile (frontendExt (.kubernetes frontendKSel) t0 0 (.waiting "")
      [⟨t1, ["/base/a.txt"]⟩] "auto" [] []) Monitor.initial =
      { monitor := ⟨[("frontend-fw", ⟨[("/base/a.txt", t1)], t1⟩)], none, []⟩
        status := ⟨none, [⟨"pod-1", "default", "main", "main-id", 0,
          some "ContainerWaiting", ""⟩]⟩
        calls := []
        started := none
        completed := none
        logs := [] } := by
    simp [reconcile, requiredMissing, missingSource, frontendExt, frontendSpec,
      frontendKSel, absorbAll, absorbOne, alookup, upsertA, stepAfterAbsorb, gateOf,
      buildsMax, planAndExecute, resolveSelector, resolveK8s, matchedContainers,
      matchesKSelector, cmap, classifyContainer, isCrashLooping, isTerminatedState,
      isRunningState, stopHit, stopHits, allPaths, msOf, matchesStopPath, joinPath,
      Monitor.initial, pendingFiles, underSomeSync, synthContainers, syncedOf,
      execErrOf, cmOf, f1, f3, Nat.zero_max, Nat.max_zero,
      List.foldl_cons, List.foldl_nil]
  have e2 : reconcile (noIdExt t0 t1) Monitor.initial =
      { monitor := ⟨[("frontend-fw", ⟨[("/base/a.txt", t1)], t1⟩)], none, []⟩
        status := ⟨none, [⟨"pod-1", "default", "main", "", 0,
          some "ContainerWaiting", ""⟩]⟩
        calls := []
        started := none
        completed := none
        logs := [] } := by
    simp [reconcile, requiredMissing, missingSource, noIdExt, frontendExt, frontendSpec,
      frontendKSel, absorbAll, absorbOne, alookup, upsertA, stepAfterAbsorb, gateOf,
      buildsMax, planAndExecute, resolveSelector, resolveK8s, matchedContainers,
      matchesKSelector, cmap, classifyContainer, isCrashLooping, isTerminatedState,
      isRunningState, stopHit, stopHits, allPaths, msOf, matchesStopPath, joinPath,
      Monitor.initial, pendingFiles, underSomeSync, synthContainers, syncedOf,
      execErrOf, cmOf, f1, f3, Nat.zero_max, Nat.max_zero,
      List.foldl_cons, List.foldl_nil]
  have e3 : (reconcile (frontendExt (.kubernetes frontendKSel) t0 0 (.running t0)
      [⟨t1, ["/base/a.txt"]⟩] "auto" [] [])
      (⟨[("frontend-fw", ⟨[("/base/a.txt", t1)], t1⟩)], none, []⟩ : Monitor)).calls =
      [⟨"main-id", ["/base/a.txt"], [], true⟩] := by
    simp [reconcile, requiredMissing, missingSource, frontendExt, frontendSpec,
      frontendKSel, absorbAll, absorbOne, alookup, upsertA, stepAfterAbsorb, gateOf,
      buildsMax, planAndExecute, resolveSelector, resolveK8s, matchedContainers,
      matchesKSelector, cmap, classifyContainer, isCrashLooping, isTerminatedState,
      isRunningState, stopHit, stopHits, allPaths, msOf, matchesStopPath, joinPath,
      Monitor.initial, pendingFiles, underSomeSync, synthContainers, syncedOf,
      execErrOf, cmOf, doUpdate, execFold, execOneTarget, theCall, execsToRun,
      maxFileTime, advanceContainer, f1, f2, f3, f4, f5, Nat.zero_max, Nat.max_zero,
      List.foldl_cons, List.foldl_nil]
  rw [e1]
  simp only
  rw [e2, e3]
  refine ⟨?_, ?_, ?_, ?_, ?_⟩ <;> first | rfl | trivial

/-! ## Updater error classification (claim C4) -/

/-- Claim C4: when the container updater returns a run-step failure,
`status.failed` stays nil and the affected container's status entry
records `lastExecError` with the failure message, leaving the update
retryable; when the updater returns any other error, `status.failed` is
set with reason `UpdateFailed` and message exactly
`Updating container <id>: <err>`, and the BuildCompleted event carries
the same error. -/
theorem updater_error_classification (msg : String) :
    ((reconcile (dcFrontendExt 10 10 [⟨11, ["/base/a.txt"]⟩] []
        [("main-id", .runStepFailure msg)]) Monitor.initial).status.failed = none ∧
     (reconcile (dcFrontendExt 10 10 [⟨11, ["/base/a.txt"]⟩] []
        [("main-id", .runStepFailure msg)]) Monitor.initial).status.containers.map
          ContainerStatus.lastExecError = [msg] ∧
     (reconcile (dcFrontendExt 10 10 [⟨11, ["/base/a.txt"]⟩] []
        [("main-id", .runStepFailure msg)]) Monitor.initial).completed = some (some msg)) ∧
    ((reconcile (dcFrontendExt 10 10 [⟨11, ["/base/a.txt"]⟩] []
        [("main-id", .infraFailure msg)]) Monitor.initial).status.failed =
        some ⟨"UpdateFailed", "Updating container main-id: " ++ msg⟩ ∧
     (reconcile (dcFrontendExt 10 10 [⟨11, ["/base/a.txt"]⟩] []
        [("main-id", .infraFailure msg)]) Monitor.initial).completed =
        some (some ("Updating container main-id: " ++ msg))) := by
  exact ⟨⟨rfl, rfl, rfl⟩, rfl, rfl⟩

/-! ## Witnesses: the scenario theorems evaluated at concrete clocks -/

/-- Witness for the stop-path scenario at clocks 0 < 1 < 2 < 3. -/
theorem stopPath_stops_until_superseded_witness :
    ((0:Nat) < 1 ∧ (1:Nat) < 2 ∧ (2:Nat) < 3) ∧
    ((reconcile (stopExt 0 0 [⟨1, ["/base/stop.txt"]⟩]) Monitor.initial).status.failed =
      some ⟨"UpdateStopped", "Updates stopped"⟩ ∧
    (reconcile (stopExt 0 0 [⟨1, ["/base/stop.txt"]⟩]) Monitor.initial).calls = [] ∧
    (reconcile (stopExt 0 0 [⟨1, ["/base/stop.txt"]⟩])
        (reconcile (stopExt 0 0 [⟨1, ["/base/stop.txt"]⟩]) Monitor.initial).monitor).status.failed =
      some ⟨"UpdateStopped", "Updates stopped"⟩ ∧
    (reconcile (stopExt 0 0 [⟨1, ["/base/stop.txt"]⟩])
        (reconcile (stopExt 0 0 [⟨1, ["/base/stop.txt"]⟩]) Monitor.initial).monitor).calls = [] ∧
    (reconcile (stopExt 2 0 [⟨1, ["/base/stop.txt"]⟩])
        (reconcile (stopExt 0 0 [⟨1, ["/base/stop.txt"]⟩]) Monitor.initial).monitor).status.failed =
      none ∧
    (reconcile (stopExt 2 0 [⟨1, ["/base/stop.txt"]⟩])
        (reconcile (stopExt 0 0 [⟨1, ["/base/stop.txt"]⟩]) Monitor.initial).monitor).calls = [] ∧
    (reconcile (frontendExt (.kubernetes frontendKSel) 0 2 (.running 0)
        [⟨1, ["/base/stop.txt"]⟩] "auto" [] [])
        (reconcile (stopExt 0 0 [⟨1, ["/base/stop.txt"]⟩]) Monitor.initial).monitor).status.failed =
      none ∧
    (reconcile (frontendExt (.kubernetes frontendKSel) 0 2 (.running 0)
        [⟨1, ["/base/stop.txt"]⟩] "auto" [] [])
        (reconcile (stopExt 0 0 [⟨1, ["/base/stop.txt"]⟩]) Monitor.initial).monitor).calls = [] ∧
    (reconcile (stopExt 2 0 [⟨1, ["/base/stop.txt"]⟩, ⟨3, ["/base/a.txt"]⟩])
        (reconcile (stopExt 2 0 [⟨1, ["/base/stop.txt"]⟩])
          (reconcile (stopExt 0 0 [⟨1, ["/base/stop.txt"]⟩]) Monitor.initial).monitor).monitor).calls =
      [⟨"main-id", ["/base/a.txt"], [], true⟩]) :=
  ⟨⟨by decide, by decide, by decide⟩,
   stopPath_stops_until_superseded 0 1 2 3 (by decide) (by decide) (by decide)⟩

/-- Witness for the crash-loop scenario at clocks 0 < 1. -/
theorem crashLoopBackOff_is_sticky_witness :
    ((0:Nat) < 1) ∧
    ((reconcile (frontendExt (.kubernetes frontendKSel) 0 0 (.waiting "CrashLoopBackOff")
        [⟨1, ["/base/a.txt"]⟩] "auto" [] []) Monitor.initial).status.failed =
      some ⟨"CrashLoopBackOff", "Container for live update is crash looping."⟩ ∧
    (reconcile (frontendExt (.kubernetes frontendKSel) 0 0 (.waiting "CrashLoopBackOff")
        [⟨1, ["/base/a.txt"]⟩] "auto" [] []) Monitor.initial).calls = [] ∧
    (reconcile (frontendExt (.kubernetes frontendKSel) 0 0 (.running 0)
        [⟨1, ["/base/a.txt"]⟩] "auto" [] [])
      (reconcile (frontendExt (.kubernetes frontendKSel) 0 0 (.waiting "CrashLoopBackOff")
        [⟨1, ["/base/a.txt"]⟩] "auto" [] []) Monitor.initial).monitor).status.failed =
      some ⟨"CrashLoopBackOff", "Container for live update is crash looping."⟩ ∧
    (reconcile (frontendExt (.kubernetes frontendKSel) 0 0 (.running 0)
        [⟨1, ["/base/a.txt"]⟩] "auto" [] [])
      (reconcile (frontendExt (.kubernetes frontendKSel) 0 0 (.waiting "CrashLoopBackOff")
        [⟨1, ["/base/a.txt"]⟩] "auto" [] []) Monitor.initial).monitor).calls = []) :=
  ⟨by decide, crashLoopBackOff_is_sticky 0 1 (by decide)⟩

/-- Witness for the manual-mode scenario at clocks 0 < 1. -/
theorem manual_mode_waits_for_trigger_witness :
    ((0:Nat) < 1) ∧
    ((reconcile (frontendExt (.kubernetes frontendKSel) 0 0 (.running 0)
        [⟨1, ["/base/a.txt"]⟩] "manual" [] []) Monitor.initial).calls = [] ∧
    (reconcile (frontendExt (.kubernetes frontendKSel) 0 0 (.running 0)
        [⟨1, ["/base/a.txt"]⟩] "manual" [] []) Monitor.initial).status =
      ⟨none, [⟨"pod-1", "default", "main", "main-id", 0, some "Trigger", ""⟩]⟩ ∧
    (reconcile (frontendExt (.kubernetes frontendKSel) 0 0 (.running 0)
        [⟨1, ["/base/a.txt"]⟩] "manual" ["frontend"] [])
      (reconcile (frontendExt (.kubernetes frontendKSel) 0 0 (.running 0)
        [⟨1, ["/base/a.txt"]⟩] "manual" [] []) Monitor.initial).monitor).calls =
      [⟨"main-id", ["/base/a.txt"], [], true⟩] ∧
    (reconcile (frontendExt (.kubernetes frontendKSel) 0 0 (.running 0)
        [⟨1, ["/base/a.txt"]⟩] "manual" ["frontend"] [])
      (reconcile (frontendExt (.kubernetes frontendKSel) 0 0 (.running 0)
        [⟨1, ["/base/a.txt"]⟩] "manual" [] []) Monitor.initial).monitor).status =
      ⟨none, [⟨"pod-1", "default", "main", "main-id", 1, none, ""⟩]⟩) :=
  ⟨by decide, manual_mode_waits_for_trigger 0 1 (by decide)⟩

/-- Witness for the waiting-container scenario at clocks 0 < 1. -/
theorem waiting_container_not_updated_witness :
    ((0:Nat) < 1) ∧
    ((reconcile (frontendExt (.kubernetes frontendKSel) 0 0 (.waiting "")
        [⟨1, ["/base/a.txt"]⟩] "auto" [] []) Monitor.initial).calls = [] ∧
    (reconcile (frontendExt (.kubernetes frontendKSel) 0 0 (.waiting "")
        [⟨1, ["/base/a.txt"]⟩] "auto" [] []) Monitor.initial).status =
      ⟨none, [⟨"pod-1", "default", "main", "main-id", 0, some "ContainerWaiting", ""⟩]⟩ ∧
    (reconcile (noIdExt 0 1) Monitor.initial).calls = [] ∧
    (reconcile (noIdExt 0 1) Monitor.initial).status =
      ⟨none, [⟨"pod-1", "default", "main", "", 0, some "ContainerWaiting", ""⟩]⟩ ∧
    (reconcile (frontendExt (.kubernetes frontendKSel) 0 0 (.running 0)
        [⟨1, ["/base/a.txt"]⟩] "auto" [] [])
      (reconcile (frontendExt (.kubernetes frontendKSel) 0 0 (.waiting "")
        [⟨1, ["/base/a.txt"]⟩] "auto" [] []) Monitor.initial).monitor).calls =
      [⟨"main-id", ["/base/a.txt"], [], true⟩]) :=
  ⟨by decide, waiting_container_not_updated 0 1 (by decide)⟩

/-- The frontend fixture with the selector's KubernetesApply deleted, as
in `TestMissingApply`. -/
def frontendExtMissingApply : ExtState :=
  { frontendExt (.kubernetes frontendKSel) 10 0 (.running 10)
      [⟨11, ["/base/a.txt"]⟩] "auto" [] [] with
    kubernetesApplies := [] }

/-- Witness for the missing-apply claim on the concrete fixture. -/
theorem missing_apply_objectNotFound_witness :
    (frontendExtMissingApply.spec.selector = .kubernetes frontendKSel ∧
     missingSource frontendExtMissingApply frontendExtMissingApply.spec.sources = none ∧
     (alookup frontendExtMissingApply.kubernetesDiscoveries
       frontendKSel.discoveryName).isSome = true ∧
     frontendKSel.applyName ≠ "" ∧
     alookup frontendExtMissingApply.kubernetesApplies frontendKSel.applyName = none) ∧
    ((reconcile frontendExtMissingApply Monitor.initial).status.failed =
      some ⟨"ObjectNotFound", "Not found: " ++ frontendKSel.applyName⟩ ∧
    (reconcile frontendExtMissingApply Monitor.initial).calls = [] ∧
    (reconcile frontendExtMissingApply Monitor.initial).logs = [] ∧
    reconcile frontendExtMissingApply (reconcile frontendExtMissingApply Monitor.initial).monitor =
      reconcile frontendExtMissingApply Monitor.initial) :=
  ⟨⟨rfl, rfl, rfl, by decide, rfl⟩,
   missing_apply_objectNotFound frontendExtMissingApply Monitor.initial frontendKSel
     rfl rfl rfl (by decide) rfl⟩

end Tilt
